import Mathlib

/-!
# Presence-reactive relay controller (`server_new/server.js`)

A shallow embedding of the controller's decision engine: the `currentStatus`
record, the label function `getStateKey`, the report handler
(`POST /api/v1/status`), the device poll (`GET /api/v1/command`), the operator
command handler (`POST /api/v1/command`), the relay mirror
(`GET /api/v1/relay_state`), the label-change logger `logStateChange`, the two
timer callbacks that mutate the record (countdown checker, heartbeat checker),
and the history table behind `addStatusSample` (`server_new/database.js`).

Modelling conventions
* Timestamps are the values of `Date.now() / 1000`, i.e. seconds. They are
  modelled as exact rationals, so `now - last_update > 60` is an exact
  comparison.
* Every handler runs to completion on the single JavaScript thread, so it is a
  function from the record before to the record after. All clock reads made by
  one handler invocation are represented by one argument `now`.
* The storage calls (`db.log`, `db.updateDeviceStatus`, ...) never touch
  `currentStatus`. `postStatus`, `postCommand`, `getCommand` and the timer
  callbacks give the effect on `currentStatus`; `logStateChange` and
  `commandHandler` also give the storage calls made, as a list of `DbCall`.
* `config.DEVICE_ID` is a parameter `cfgDeviceId` wherever it is used.
-/

namespace Guardian

/-- The values ever stored in `currentStatus.pending_command` besides `null`:
the strings `'relay_on'` and `'relay_off'`. -/
inductive PendingCommand where
  | relay_on
  | relay_off
  deriving DecidableEq, Repr

/-- The five strings returned by `getStateKey`. -/
inductive StateKey where
  | OFFLINE
  | SOMEONE
  | FORCED
  | COUNTDOWN
  | IDLE
  deriving DecidableEq, Repr

/-- The record `currentStatus` (server.js lines 15-27). `pending_command` is
`none` for JavaScript `null`. -/
structure Status where
  device_connected : Bool
  motion_detected : Bool
  relay_active : Bool
  last_update : ℚ
  last_motion_time : ℚ
  countdown_active : Bool
  countdown_start : ℚ
  countdown_duration : ℚ
  pending_command : Option PendingCommand
  forced_mode : Bool
  forced_release_armed : Bool
  deriving DecidableEq

/-- The initial value of `currentStatus` when the module is loaded at time
`boot` (server.js lines 15-27). -/
def currentStatus (boot : ℚ) : Status :=
  { device_connected := false
    motion_detected := false
    relay_active := false
    last_update := boot
    last_motion_time := boot
    countdown_active := false
    countdown_start := 0
    countdown_duration := 3 * 60
    pending_command := none
    forced_mode := false
    forced_release_armed := false }

/-- The function `getStateKey` (server.js lines 30-36). -/
def getStateKey (status : Status) : StateKey :=
  if !status.device_connected then StateKey.OFFLINE
  else if status.motion_detected then StateKey.SOMEONE
  else if status.forced_mode then StateKey.FORCED
  else if status.relay_active && status.countdown_active then StateKey.COUNTDOWN
  else StateKey.IDLE

/-- Countdown checker, the body of the first `setInterval` callback
(server.js lines 74-88), run at clock reading `now`. -/
def countdownCheck (s : Status) (now : ℚ) : Status :=
  if s.countdown_active then
    let elapsed := now - s.countdown_start
    let remainingTime := max 0 (s.countdown_duration - elapsed)
    if remainingTime ≤ 0 then
      { s with
        countdown_active := false
        relay_active := false
        forced_mode := false
        pending_command := some PendingCommand.relay_off }
    else s
  else s

/-- Heartbeat checker, the body of the second `setInterval` callback
(server.js lines 91-100), run at clock reading `now`. -/
def heartbeatCheck (s : Status) (now : ℚ) : Status :=
  if s.device_connected && decide (now - s.last_update > 60) then
    { s with
      device_connected := false
      countdown_active := false
      pending_command := none }
  else s

/-- The body of a report, as the handler reads it: `motion` and `relay` are
the truthiness of `data.motion` and `data.relay` (`!!data.motion`,
`!!data.relay`); `situation` is `some n` when `data.situation` is the number
`n` and `none` when the field is absent or not an integer number. -/
structure StatusReport where
  device_id : Option String
  motion : Bool
  relay : Bool
  situation : Option Int
  deriving DecidableEq

/-- The pair `(motion, relay)` the report handler computes from the body
(server.js lines 171-183): a situation code 1, 2 or 3 overrides both flags. -/
def reportFlags (data : StatusReport) : Bool × Bool :=
  let motion := data.motion
  let relay := data.relay
  if data.situation = some 1 then (true, true)
  else if data.situation = some 2 then (false, true)
  else if data.situation = some 3 then (false, false)
  else (motion, relay)

/-- The effective motion value of a report: the local `motion` of the handler
after the situation code has been applied. -/
def effectiveMotion (data : StatusReport) : Bool := (reportFlags data).1

/-- The effective relay value of a report: the local `relay` of the handler
after the situation code has been applied. It is only used for the debug log
text. -/
def effectiveRelay (data : StatusReport) : Bool := (reportFlags data).2

/-- Report handler `POST /api/v1/status` (server.js lines 166-235): its effect
on `currentStatus` when the report `data` is handled at clock reading `now`. -/
def postStatus (s : Status) (data : StatusReport) (now : ℚ) : Status :=
  let motion := effectiveMotion data
  let s := { s with device_connected := true, last_update := now }
  if motion ≠ s.motion_detected then
    if motion then
      let s :=
        if s.forced_mode && s.forced_release_armed then
          { s with forced_mode := false, forced_release_armed := false }
        else s
      { s with
        motion_detected := true
        last_motion_time := now
        relay_active := true
        countdown_active := false
        pending_command := some PendingCommand.relay_on }
    else
      let s := { s with motion_detected := false }
      if s.forced_mode then
        { s with forced_release_armed := true }
      else if s.relay_active then
        { s with countdown_active := true, countdown_start := now }
      else
        { s with countdown_active := false }
  else s

/-- Device poll `GET /api/v1/command` (server.js lines 237-247): the command
placed in the response and the record afterwards. -/
def getCommand (s : Status) : Option PendingCommand × Status :=
  let command := s.pending_command
  let s := if command.isSome then { s with pending_command := none } else s
  (command, s)

/-- Operator command handler `POST /api/v1/command` (server.js lines 255-300).
`command` is `req.body.command`: `none` when it is absent, `some c` when it is
the string `c` (the empty string is falsy in JavaScript; a truthy value that
is not a string compares unequal to all four names, like an unrecognised
string). The result is
`Except.error` with the message of the 400 response, or `Except.ok` with the
record afterwards. -/
def postCommand (s : Status) (command : Option String) (now : ℚ) :
    Except String Status :=
  match command with
  | none => Except.error "Missing command"
  | some c =>
    if c = "" then Except.error "Missing command"
    else if c = "keep_power" then
      Except.ok
        { s with
          forced_mode := true
          forced_release_armed := !s.motion_detected
          countdown_active := false
          relay_active := true
          pending_command := some PendingCommand.relay_on }
    else if c = "cancel_forced" then
      let s := { s with forced_mode := false, forced_release_armed := false }
      if s.motion_detected then
        Except.ok { s with relay_active := true, countdown_active := false }
      else
        Except.ok { s with countdown_active := true, countdown_start := now }
    else if c = "power_off" then
      Except.ok
        { s with
          forced_mode := false
          forced_release_armed := false
          countdown_active := false
          relay_active := false
          pending_command := some PendingCommand.relay_off }
    else if c = "reset" then
      Except.ok
        { s with
          motion_detected := false
          relay_active := false
          countdown_active := false
          pending_command := none
          forced_mode := false
          forced_release_armed := false }
    else Except.error "Unknown command"

/-- A connected, occupied state with the relay on, used as a concrete input:
the record after a first presence report at time 100 on a server started at
time 0. -/
def occupiedStatus : Status :=
  { device_connected := true
    motion_detected := true
    relay_active := true
    last_update := 100
    last_motion_time := 100
    countdown_active := false
    countdown_start := 0
    countdown_duration := 3 * 60
    pending_command := some PendingCommand.relay_on
    forced_mode := false
    forced_release_armed := false }

/-- A report body `{ motion: true }`. -/
def motionReport : StatusReport :=
  { device_id := none, motion := true, relay := false, situation := none }

/-- A report body `{ motion: false }`. -/
def idleReport : StatusReport :=
  { device_id := none, motion := false, relay := false, situation := none }

/-- One run of a timer callback: the countdown checker or the heartbeat
checker, with the clock reading of that run. -/
inductive TimerEvent where
  | countdown (now : ℚ)
  | heartbeat (now : ℚ)
  deriving DecidableEq

/-- The clock reading of a timer run. -/
def TimerEvent.time : TimerEvent → ℚ
  | TimerEvent.countdown now => now
  | TimerEvent.heartbeat now => now

/-- The effect of one timer run on `currentStatus`. -/
def timerStep (s : Status) : TimerEvent → Status
  | TimerEvent.countdown now => countdownCheck s now
  | TimerEvent.heartbeat now => heartbeatCheck s now

/-- The effect of a sequence of timer runs, in the order they fire, with no
request handled in between. -/
def runTimers (s : Status) (evs : List TimerEvent) : Status :=
  evs.foldl timerStep s

/-- The timer runs of the `k`-th second after `t0`: the countdown checker
(period 1 s) fires, and on every fifth second the heartbeat checker
(period 5 s) fires after it (the countdown interval is registered first). -/
def ticksAt (t0 : ℚ) (k : Nat) : List TimerEvent :=
  TimerEvent.countdown (t0 + k) ::
    (if k % 5 = 0 then [TimerEvent.heartbeat (t0 + k)] else [])

/-- The timer runs during the first `n` seconds after `t0`, for timers in
phase with `t0`: the runs of seconds `1, 2, ..., n` in order. -/
def timerSchedule (t0 : ℚ) : Nat → List TimerEvent
  | 0 => []
  | n + 1 => timerSchedule t0 n ++ ticksAt t0 (n + 1)

/-- The record the heartbeat checker leaves when it fires on `s`. -/
def markOffline (s : Status) : Status :=
  { s with
    device_connected := false
    countdown_active := false
    pending_command := none }

/-- The effect of a sequence of reports, each with the clock reading at which
it is handled, with nothing else handled in between. -/
def runReports (s : Status) (rs : List (StatusReport × ℚ)) : Status :=
  rs.foldl (fun st r => postStatus st r.1 r.2) s

/-- No report of the sequence changed `motion_detected` from false to true
when it was handled (starting from `s`). -/
def noRisingEdge : Status → List (StatusReport × ℚ) → Bool
  | _, [] => true
  | s, r :: rs =>
    !(!s.motion_detected && (postStatus s r.1 r.2).motion_detected)
      && noRisingEdge (postStatus s r.1 r.2) rs

/-- The record left by `{ motion: false }` at time 130 on `occupiedStatus`:
unoccupied, relay still on, countdown running since 130. -/
def countingStatus : Status :=
  { device_connected := true
    motion_detected := false
    relay_active := true
    last_update := 130
    last_motion_time := 100
    countdown_active := true
    countdown_start := 130
    countdown_duration := 3 * 60
    pending_command := some PendingCommand.relay_on
    forced_mode := false
    forced_release_armed := false }

/-- The level strings passed to `db.log`. -/
inductive LogLevel where
  | DEBUG
  | INFO
  | WARN
  | ERROR
  deriving DecidableEq, Repr

/-- One call made on the storage module `database.js`, with its arguments.
Every such call is fire-and-forget; none of them reads or writes
`currentStatus`. -/
inductive DbCall where
  | log (deviceId : String) (level : LogLevel) (message : String)
  | updateDeviceStatus (deviceId : String) (status : String)
  | setPendingAction (deviceId : String) (pending : Bool)
  | recordDecision (deviceId : String) (decision : String) (note : Option String)
  | addStatusSample (state : StateKey)
  deriving DecidableEq

/-- The table `STATE_NAMES` (server.js lines 38-44). -/
def STATE_NAMES : StateKey → String
  | StateKey.OFFLINE => "设备离线"
  | StateKey.SOMEONE => "有人"
  | StateKey.FORCED => "强制开灯"
  | StateKey.IDLE => "无人"
  | StateKey.COUNTDOWN => "即将关灯"

/-- JavaScript `x || d` for an optional string `x`: `d` when `x` is absent or
the empty string. -/
def orDefault (x : Option String) (d : String) : String :=
  match x with
  | none => d
  | some v => if v = "" then d else v

/-- The function `logStateChange` (server.js lines 46-71): the storage calls it
makes. `cfgDeviceId` is `config.DEVICE_ID`. -/
def logStateChange (oldState newState : StateKey) (deviceId : Option String)
    (cfgDeviceId : String) : List DbCall :=
  if oldState = newState then []
  else
    let level := LogLevel.INFO
    let message := "状态变更: " ++ STATE_NAMES oldState ++ " -> " ++ STATE_NAMES newState
    let lm : LogLevel × String :=
      if newState = StateKey.OFFLINE then (LogLevel.ERROR, "状态更新：设备离线")
      else if newState = StateKey.FORCED then (LogLevel.WARN, "状态更新：强制开灯")
      else if newState = StateKey.COUNTDOWN then (LogLevel.WARN, "状态更新：即将关灯")
      else if newState = StateKey.SOMEONE then (LogLevel.INFO, "状态更新：有人")
      else if newState = StateKey.IDLE then (LogLevel.INFO, "状态更新：无人关灯")
      else (level, message)
    [DbCall.log (orDefault deviceId cfgDeviceId) lm.1 lm.2]

/-- The level of a storage call when it is a `db.log` call. -/
def DbCall.logLevel : DbCall → Option LogLevel
  | DbCall.log _ level _ => some level
  | _ => none

/-- Whether a storage call is a `db.recordDecision` call. -/
def DbCall.isRecordDecision : DbCall → Bool
  | DbCall.recordDecision _ _ _ => true
  | _ => false

/-- The JSON response of the operator command handler with its HTTP status. -/
structure CommandResponse where
  httpStatus : Nat
  success : Bool
  message : String
  deriving DecidableEq

/-- Operator command handler `POST /api/v1/command` (server.js lines 255-300)
with everything it does: the response, the record afterwards and the storage
calls made. Both 400 responses return before any assignment to
`currentStatus` and before `logStateChange`; a successful command is followed
by `logStateChange(oldState, getStateKey(currentStatus), config.DEVICE_ID)`
and by no other storage call. -/
def commandHandler (cfgDeviceId : String) (s : Status) (command : Option String)
    (now : ℚ) : CommandResponse × Status × List DbCall :=
  let oldState := getStateKey s
  match postCommand s command now with
  | Except.error msg =>
    ({ httpStatus := 400, success := false, message := msg }, s, [])
  | Except.ok s1 =>
    ({ httpStatus := 200, success := true,
       message := "Command executed: " ++ command.getD "" },
      s1, logStateChange oldState (getStateKey s1) (some cfgDeviceId) cfgDeviceId)

/-- Relay mirror `GET /api/v1/relay_state` (server.js lines 250-253): the body
sent. The handler assigns nothing to `currentStatus`. -/
def getRelayState (s : Status) : String :=
  let state := getStateKey s
  if state = StateKey.IDLE then "0" else "1"

/-- One thing that happens to the controller: a report, an operator command,
a device poll, a relay mirror read, or a run of one of the two timer
callbacks. -/
inductive Event where
  | report (data : StatusReport) (now : ℚ)
  | command (command : Option String) (now : ℚ)
  | poll
  | relayRead
  | countdownTick (now : ℚ)
  | heartbeatTick (now : ℚ)
  deriving DecidableEq

/-- The effect of one event on `currentStatus`. -/
def step (cfgDeviceId : String) (s : Status) : Event → Status
  | Event.report data now => postStatus s data now
  | Event.command command now => (commandHandler cfgDeviceId s command now).2.1
  | Event.poll => (getCommand s).2
  | Event.relayRead => s
  | Event.countdownTick now => countdownCheck s now
  | Event.heartbeatTick now => heartbeatCheck s now

/-- The effect of a sequence of events, handled one after the other. -/
def run (cfgDeviceId : String) (s : Status) (evs : List Event) : Status :=
  evs.foldl (step cfgDeviceId) s

/-- The records the controller can be in: those obtained from the initial
record by some finite sequence of events. -/
def Reachable (s : Status) : Prop :=
  ∃ (cfgDeviceId : String) (boot : ℚ) (evs : List Event),
    run cfgDeviceId (currentStatus boot) evs = s

/-- A row of the table `status_history` (database.js lines 64-69): the
autoincrement key `id`, the sample time `ts` and the label `state`. -/
structure HistoryRow where
  id : Nat
  ts : ℚ
  state : StateKey
  deriving DecidableEq

/-- The table `status_history`: its rows in insertion order, and the largest
key handed out so far (the counter SQLite keeps for an `AUTOINCREMENT`
column). -/
structure HistoryTable where
  rows : List HistoryRow
  seq : Nat
  deriving DecidableEq

/-- What the schema guarantees of the table: `id` is a primary key, so no two
rows share it, and no row has a key above the autoincrement counter. -/
def HistoryTable.WF (t : HistoryTable) : Prop :=
  (t.rows.map HistoryRow.id).Nodup ∧ ∀ r ∈ t.rows, r.id ≤ t.seq

/-- What SQL promises of `SELECT ... ORDER BY ts DESC`: the result holds the
same rows, arranged so that `ts` never increases. How rows with equal `ts`
are arranged is left to the engine. -/
def OrdersByTsDesc (orderBy : List HistoryRow → List HistoryRow) : Prop :=
  ∀ l, (orderBy l).Perm l ∧ (orderBy l).Pairwise (fun a b => b.ts ≤ a.ts)

/-- The statement
`DELETE FROM status_history WHERE id NOT IN
(SELECT id FROM status_history ORDER BY ts DESC LIMIT limit)`
(database.js line 92): the rows left. `orderBy` is the engine's
`ORDER BY ts DESC`. -/
def pruneHistory (orderBy : List HistoryRow → List HistoryRow) (limit : Nat)
    (rows : List HistoryRow) : List HistoryRow :=
  let keep := ((orderBy rows).take limit).map HistoryRow.id
  rows.filter (fun r => decide (r.id ∈ keep))

/-- The order in which the database executes the two statements that one call
of `addStatusSample` hands to `db.run`. The calls are made outside
`db.serialize` (database.js lines 88 and 92), so the library does not promise
to execute them in the order they were issued. -/
inductive RunOrder where
  | insertFirst
  | deleteFirst
  deriving DecidableEq

/-- The method `addStatusSample` (database.js lines 86-96): the `INSERT` of
the row `(tsSeconds, state)` under a fresh key, and the `DELETE` that keeps
the 28800 rows first in `ORDER BY ts DESC`, executed in the order `order`.
Both statements are taken to succeed. -/
def addStatusSample (orderBy : List HistoryRow → List HistoryRow) (order : RunOrder)
    (t : HistoryTable) (state : StateKey) (tsSeconds : ℚ) : HistoryTable :=
  let row : HistoryRow := { id := t.seq + 1, ts := tsSeconds, state := state }
  match order with
  | RunOrder.insertFirst =>
    { rows := pruneHistory orderBy 28800 (t.rows ++ [row]), seq := t.seq + 1 }
  | RunOrder.deleteFirst =>
    { rows := pruneHistory orderBy 28800 t.rows ++ [row], seq := t.seq + 1 }

/-- One way an engine may carry out `ORDER BY ts DESC`: a stable insertion
sort. -/
def orderByTsDesc (rows : List HistoryRow) : List HistoryRow :=
  List.insertionSort (fun a b => b.ts ≤ a.ts) rows

/-- A table holding three samples taken at times 3, 6 and 9. -/
def sampleTable : HistoryTable :=
  { rows :=
      [{ id := 1, ts := 3, state := StateKey.OFFLINE },
        { id := 2, ts := 6, state := StateKey.SOMEONE },
        { id := 3, ts := 9, state := StateKey.SOMEONE }]
    seq := 3 }

/-- The rows of `n` samples with keys 1 to `n` taken at times 0 to `n - 1`. -/
def sampleRows (n : Nat) : List HistoryRow :=
  (List.range n).map (fun i => { id := i + 1, ts := (i : ℚ), state := StateKey.IDLE })

/-- A table at the cap: 28800 samples with keys 1 to 28800 taken at times
0 to 28799. -/
def fullTable : HistoryTable :=
  { rows := sampleRows 28800, seq := 28800 }

/-- Whether an event is an operator command. -/
def Event.isCommand : Event → Bool
  | Event.command _ _ => true
  | _ => false

/-- Whether the event is a report whose handling changes `motion_detected`
from false to true on the record `s`. -/
def reportRaisesMotion (s : Status) : Event → Bool
  | Event.report data now => !s.motion_detected && (postStatus s data now).motion_detected
  | _ => false

/-- No report of the event sequence changed `motion_detected` from false to
true when it was handled (starting from `s`, the other events of the sequence
taking effect in between). -/
def noRisingReport (cfgDeviceId : String) : Status → List Event → Bool
  | _, [] => true
  | s, e :: evs =>
    !reportRaisesMotion s e && noRisingReport cfgDeviceId (step cfgDeviceId s e) evs

/-! ## Theorems -/

/-- C1: `getStateKey` follows the priority order OFFLINE (not connected),
SOMEONE (motion), FORCED (forced mode), COUNTDOWN (relay and countdown both
active), IDLE (otherwise); in particular it returns OFFLINE, and nothing else,
whenever `device_connected` is false. -/
theorem getStateKey_priority (s : Status) :
    getStateKey s =
        (if s.device_connected = false then StateKey.OFFLINE
         else if s.motion_detected = true then StateKey.SOMEONE
         else if s.forced_mode = true then StateKey.FORCED
         else if s.relay_active = true ∧ s.countdown_active = true then StateKey.COUNTDOWN
         else StateKey.IDLE)
      ∧ (s.device_connected = false → getStateKey s = StateKey.OFFLINE) := by
  unfold getStateKey
  cases s.device_connected <;> cases s.motion_detected <;> cases s.forced_mode <;>
    cases s.relay_active <;> cases s.countdown_active <;> simp

/-- Witness for C1 at the initial record, which is not connected. -/
theorem getStateKey_priority_witness :
    getStateKey (currentStatus 0) = StateKey.OFFLINE :=
  (getStateKey_priority (currentStatus 0)).2 rfl

/-- C2: a report with effective motion true, handled at time `now` in a state
with `motion_detected = false`, leaves `motion_detected = true`,
`relay_active = true`, `countdown_active = false`,
`pending_command = relay_on`, `last_motion_time = now`,
`device_connected = true`, and the label SOMEONE. -/
theorem postStatus_motion_rising (s : Status) (data : StatusReport) (now : ℚ)
    (hs : s.motion_detected = false) (hm : effectiveMotion data = true) :
    (postStatus s data now).motion_detected = true
      ∧ (postStatus s data now).relay_active = true
      ∧ (postStatus s data now).countdown_active = false
      ∧ (postStatus s data now).pending_command = some PendingCommand.relay_on
      ∧ (postStatus s data now).last_motion_time = now
      ∧ (postStatus s data now).device_connected = true
      ∧ getStateKey (postStatus s data now) = StateKey.SOMEONE := by
  cases hf : s.forced_mode <;> cases ha : s.forced_release_armed <;>
    simp [postStatus, getStateKey, hs, hm, hf, ha]

/-- Witness for C2: the first `{ motion: true }` report on the initial
record. -/
theorem postStatus_motion_rising_witness :
    (currentStatus 0).motion_detected = false
      ∧ effectiveMotion motionReport = true
      ∧ (postStatus (currentStatus 0) motionReport 100).pending_command
          = some PendingCommand.relay_on
      ∧ getStateKey (postStatus (currentStatus 0) motionReport 100) = StateKey.SOMEONE :=
  ⟨rfl, rfl,
    (postStatus_motion_rising (currentStatus 0) motionReport 100 rfl rfl).2.2.2.1,
    (postStatus_motion_rising (currentStatus 0) motionReport 100 rfl rfl).2.2.2.2.2.2⟩

/-- C3: a report with effective motion false, handled at time `now` in a state
with `motion_detected = true`, sets `motion_detected = false`; then in forced
mode it sets `forced_release_armed = true` and keeps `relay_active`,
`countdown_active` and `countdown_start`; otherwise with the relay on it sets
`countdown_active = true` and `countdown_start = now`; otherwise it sets
`countdown_active = false`. No branch changes `relay_active` or
`pending_command`. -/
theorem postStatus_motion_falling (s : Status) (data : StatusReport) (now : ℚ)
    (hs : s.motion_detected = true) (hm : effectiveMotion data = false) :
    (postStatus s data now).motion_detected = false
      ∧ (s.forced_mode = true →
          (postStatus s data now).forced_release_armed = true
            ∧ (postStatus s data now).relay_active = s.relay_active
            ∧ (postStatus s data now).countdown_active = s.countdown_active
            ∧ (postStatus s data now).countdown_start = s.countdown_start)
      ∧ (s.forced_mode = false → s.relay_active = true →
          (postStatus s data now).countdown_active = true
            ∧ (postStatus s data now).countdown_start = now)
      ∧ (s.forced_mode = false → s.relay_active = false →
          (postStatus s data now).countdown_active = false)
      ∧ (postStatus s data now).relay_active = s.relay_active
      ∧ (postStatus s data now).pending_command = s.pending_command := by
  cases hf : s.forced_mode <;> cases hr : s.relay_active <;>
    simp [postStatus, hs, hm, hf, hr]

/-- Witness for C3: `{ motion: false }` at time 130 on the occupied record
starts the countdown at 130. -/
theorem postStatus_motion_falling_witness :
    occupiedStatus.motion_detected = true
      ∧ effectiveMotion idleReport = false
      ∧ (postStatus occupiedStatus idleReport 130).countdown_active = true
      ∧ (postStatus occupiedStatus idleReport 130).countdown_start = 130 :=
  ⟨rfl, rfl,
    (postStatus_motion_falling occupiedStatus idleReport 130 rfl rfl).2.2.1 rfl rfl⟩

/-- C4: with `countdown_active = true`, the countdown checker run at `now`
clears `countdown_active`, `relay_active`, `forced_mode` and sets
`pending_command = relay_off` when `now - countdown_start ≥ countdown_duration`,
and leaves the record unchanged when `now - countdown_start < countdown_duration`;
with `countdown_active = false` it leaves the record unchanged at every time.
Hence the checker changes the record (issuing `relay_off`) only at or after
`countdown_start + countdown_duration`. -/
theorem countdownCheck_expiry (s : Status) (now : ℚ) :
    (s.countdown_active = true → s.countdown_duration ≤ now - s.countdown_start →
        (countdownCheck s now).countdown_active = false
          ∧ (countdownCheck s now).relay_active = false
          ∧ (countdownCheck s now).forced_mode = false
          ∧ (countdownCheck s now).pending_command = some PendingCommand.relay_off)
      ∧ (s.countdown_active = true → now - s.countdown_start < s.countdown_duration →
          countdownCheck s now = s)
      ∧ (s.countdown_active = false → countdownCheck s now = s)
      ∧ (countdownCheck s now ≠ s →
          s.countdown_active = true
            ∧ s.countdown_start + s.countdown_duration ≤ now
            ∧ (countdownCheck s now).pending_command = some PendingCommand.relay_off) := by
  have key : max 0 (s.countdown_duration - (now - s.countdown_start)) ≤ 0
      ↔ s.countdown_duration ≤ now - s.countdown_start := by
    rw [max_le_iff]
    constructor
    · intro h; linarith [h.2]
    · intro h; exact ⟨le_refl 0, by linarith⟩
  refine ⟨?_, ?_, ?_, ?_⟩
  · intro ha hd
    simp [countdownCheck, ha, key.2 hd]
  · intro ha hd
    have hn : ¬ max 0 (s.countdown_duration - (now - s.countdown_start)) ≤ 0 :=
      fun h => absurd (key.1 h) (not_le.2 hd)
    simp only [countdownCheck, ha, if_true, hn, if_false]
  · intro ha
    simp [countdownCheck, ha]
  · intro hne
    cases ha : s.countdown_active with
    | false => exact absurd (by simp [countdownCheck, ha]) hne
    | true =>
      by_cases hd : s.countdown_duration ≤ now - s.countdown_start
      · refine ⟨rfl, by linarith, ?_⟩
        simp [countdownCheck, ha, key.2 hd]
      · have hn : ¬ max 0 (s.countdown_duration - (now - s.countdown_start)) ≤ 0 :=
          fun h => hd (key.1 h)
        exact absurd (by simp only [countdownCheck, ha, if_true, hn, if_false]) hne

/-- Witness for C4: on `countingStatus` (countdown started at 130, duration
180) the checker does nothing at time 309 and issues `relay_off` at time 310. -/
theorem countdownCheck_expiry_witness :
    countdownCheck countingStatus 309 = countingStatus
      ∧ (countdownCheck countingStatus 310).pending_command
          = some PendingCommand.relay_off
      ∧ (countdownCheck countingStatus 310).relay_active = false :=
  ⟨(countdownCheck_expiry countingStatus 309).2.1 rfl
      (by norm_num [countingStatus]),
    ((countdownCheck_expiry countingStatus 310).1 rfl
      (by norm_num [countingStatus])).2.2.2,
    ((countdownCheck_expiry countingStatus 310).1 rfl
      (by norm_num [countingStatus])).2.1⟩

/-! ### Timer runs without requests -/

theorem runTimers_nil (s : Status) : runTimers s [] = s := rfl

theorem runTimers_cons (s : Status) (e : TimerEvent) (evs : List TimerEvent) :
    runTimers s (e :: evs) = runTimers (timerStep s e) evs := rfl

theorem runTimers_append (s : Status) (xs ys : List TimerEvent) :
    runTimers s (xs ++ ys) = runTimers (runTimers s xs) ys := by
  simp [runTimers, List.foldl_append]

/-- A record that is offline with no countdown is a fixed point of both timer
callbacks. -/
theorem timerStep_frozen (s : Status) (e : TimerEvent)
    (hc : s.device_connected = false) (ha : s.countdown_active = false) :
    timerStep s e = s := by
  cases e <;> simp [timerStep, countdownCheck, heartbeatCheck, hc, ha]

theorem runTimers_frozen (s : Status) (evs : List TimerEvent)
    (hc : s.device_connected = false) (ha : s.countdown_active = false) :
    runTimers s evs = s := by
  induction evs with
  | nil => rfl
  | cons e evs ih => rw [runTimers_cons, timerStep_frozen s e hc ha, ih]

/-- The countdown checker does nothing before the countdown has run out. -/
theorem countdownCheck_before (s : Status) (now : ℚ)
    (h : now < s.countdown_start + s.countdown_duration) :
    countdownCheck s now = s := by
  have hn : ¬ max 0 (s.countdown_duration - (now - s.countdown_start)) ≤ 0 := by
    rw [max_le_iff]
    intro hle
    linarith [hle.2]
  cases ha : s.countdown_active with
  | false => simp [countdownCheck, ha]
  | true => simp only [countdownCheck, ha, if_true, hn, if_false]

/-- The heartbeat checker either does nothing or marks the record offline. -/
theorem heartbeatCheck_cases (s : Status) (now : ℚ) :
    heartbeatCheck s now = s ∨ heartbeatCheck s now = markOffline s := by
  unfold heartbeatCheck markOffline
  split
  · exact Or.inr rfl
  · exact Or.inl rfl

/-- The heartbeat checker fires on a connected record silent for more than
60 seconds. -/
theorem heartbeatCheck_fires (s : Status) (now : ℚ)
    (hc : s.device_connected = true) (h : s.last_update + 60 < now) :
    heartbeatCheck s now = markOffline s := by
  have h60 : now - s.last_update > 60 := by linarith
  simp [heartbeatCheck, markOffline, hc, h60]

/-- Timer runs that all happen before the countdown runs out leave the record
as it was or marked offline. -/
theorem runTimers_before_expiry (s : Status) (evs : List TimerEvent)
    (h : ∀ e ∈ evs, e.time < s.countdown_start + s.countdown_duration) :
    runTimers s evs = s ∨ runTimers s evs = markOffline s := by
  induction evs with
  | nil => exact Or.inl rfl
  | cons e evs ih =>
    have he := h e (List.mem_cons_self e evs)
    have hrest : ∀ x ∈ evs, x.time < s.countdown_start + s.countdown_duration :=
      fun x hx => h x (List.mem_cons_of_mem e hx)
    rw [runTimers_cons]
    cases e with
    | countdown now =>
      have : timerStep s (TimerEvent.countdown now) = s :=
        countdownCheck_before s now he
      rw [this]
      exact ih hrest
    | heartbeat now =>
      rcases heartbeatCheck_cases s now with h1 | h1
      · have : timerStep s (TimerEvent.heartbeat now) = s := h1
        rw [this]
        exact ih hrest
      · have : timerStep s (TimerEvent.heartbeat now) = markOffline s := h1
        rw [this]
        exact Or.inr (runTimers_frozen (markOffline s) evs rfl rfl)

/-- Once a heartbeat run later than `last_update + 60` has happened, with all
earlier timer runs before the countdown ran out, the record is the one marked
offline, whatever timer runs follow. -/
theorem runTimers_heartbeat_cancels (s : Status) (τ : ℚ) (pre post : List TimerEvent)
    (hc : s.device_connected = true) (hτ : s.last_update + 60 < τ)
    (hpre : ∀ e ∈ pre, e.time < s.countdown_start + s.countdown_duration) :
    runTimers s (pre ++ TimerEvent.heartbeat τ :: post) = markOffline s := by
  rw [runTimers_append, runTimers_cons]
  rcases runTimers_before_expiry s pre hpre with h | h
  · rw [h]
    have : timerStep s (TimerEvent.heartbeat τ) = markOffline s :=
      heartbeatCheck_fires s τ hc hτ
    rw [this]
    exact runTimers_frozen (markOffline s) post rfl rfl
  · rw [h, timerStep_frozen (markOffline s) _ rfl rfl]
    exact runTimers_frozen (markOffline s) post rfl rfl

/-- Every timer run of the first `n` seconds after `t0` has a clock reading of
at most `t0 + n`. -/
theorem timerSchedule_time_le (t0 : ℚ) (n : Nat) :
    ∀ e ∈ timerSchedule t0 n, e.time ≤ t0 + n := by
  induction n with
  | zero => intro e he; simp [timerSchedule] at he
  | succ n ih =>
    intro e he
    simp only [timerSchedule, List.mem_append] at he
    rcases he with he | he
    · have := ih e he
      push_cast
      linarith
    · have hk : e = TimerEvent.countdown (t0 + (n + 1 : Nat))
          ∨ e = TimerEvent.heartbeat (t0 + (n + 1 : Nat)) := by
        unfold ticksAt at he
        split_ifs at he
        · simpa using he
        · exact Or.inl (by simpa using he)
      rcases hk with hk | hk <;> rw [hk] <;> simp [TimerEvent.time]

/-- From second 65 on, the schedule consists of timer runs up to `t0 + 65`,
then the heartbeat run at `t0 + 65`, then the later runs. -/
theorem timerSchedule_split (t0 : ℚ) (n : Nat) (hn : 65 ≤ n) :
    ∃ post, timerSchedule t0 n
      = (timerSchedule t0 64 ++ [TimerEvent.countdown (t0 + 65)])
          ++ TimerEvent.heartbeat (t0 + 65) :: post := by
  induction n, hn using Nat.le_induction with
  | base => exact ⟨[], by simp [timerSchedule, ticksAt]⟩
  | succ n _ ih =>
    obtain ⟨post, hpost⟩ := ih
    refine ⟨post ++ ticksAt t0 (n + 1), ?_⟩
    rw [timerSchedule, hpost]
    simp

/-- The record left by a report with effective motion false on a connected,
occupied, non-forced record with the relay on. -/
theorem postStatus_starts_countdown (s : Status) (data : StatusReport) (t0 : ℚ)
    (hf : s.forced_mode = false) (hm : s.motion_detected = true)
    (hr : s.relay_active = true) (hd : effectiveMotion data = false) :
    postStatus s data t0 =
      { s with
        device_connected := true
        last_update := t0
        motion_detected := false
        countdown_active := true
        countdown_start := t0 } := by
  simp [postStatus, hf, hm, hr, hd]

/-- C5 (as the code behaves): from a non-forced, occupied record with the
relay on (connected or not: the report handler marks it connected), a report
with motion false at `t0` gives the label COUNTDOWN. If afterwards only timer callbacks run, then as soon as a heartbeat
check has run at a time later than `t0 + 60` (all timer runs before it being
earlier than `t0 + countdown_duration`), the record is offline for good: the
label is OFFLINE, `pending_command` is none, the countdown is cancelled and
`relay_active` is still true. With timers in phase with `t0` and a duration
above 65 s this is the case after `n` seconds for every `n ≥ 65`. -/
theorem scenario2_countdown_then_offline (s : Status) (data : StatusReport)
    (t0 τ : ℚ) (pre post : List TimerEvent) (hf : s.forced_mode = false)
    (hm : s.motion_detected = true) (hr : s.relay_active = true)
    (hd : effectiveMotion data = false) (hτ : t0 + 60 < τ)
    (hpre : ∀ e ∈ pre, e.time < t0 + s.countdown_duration) :
    getStateKey (postStatus s data t0) = StateKey.COUNTDOWN
      ∧ (getStateKey (runTimers (postStatus s data t0)
            (pre ++ TimerEvent.heartbeat τ :: post)) = StateKey.OFFLINE
          ∧ (runTimers (postStatus s data t0)
              (pre ++ TimerEvent.heartbeat τ :: post)).pending_command = none
          ∧ (runTimers (postStatus s data t0)
              (pre ++ TimerEvent.heartbeat τ :: post)).countdown_active = false
          ∧ (runTimers (postStatus s data t0)
              (pre ++ TimerEvent.heartbeat τ :: post)).relay_active = true)
      ∧ (65 < s.countdown_duration → ∀ n : Nat, 65 ≤ n →
          getStateKey (runTimers (postStatus s data t0) (timerSchedule t0 n))
              = StateKey.OFFLINE
            ∧ (runTimers (postStatus s data t0) (timerSchedule t0 n)).pending_command
              = none) := by
  have hs1 := postStatus_starts_countdown s data t0 hf hm hr hd
  have hcon : (postStatus s data t0).device_connected = true := by rw [hs1]
  have hlu : (postStatus s data t0).last_update = t0 := by rw [hs1]
  have hcs : (postStatus s data t0).countdown_start = t0 := by rw [hs1]
  have hcd : (postStatus s data t0).countdown_duration = s.countdown_duration := by
    rw [hs1]
  have hra : (postStatus s data t0).relay_active = true := by rw [hs1]; exact hr
  refine ⟨?_, ?_, ?_⟩
  · rw [hs1]
    simp [getStateKey, hr, hf]
  · have hrun := runTimers_heartbeat_cancels (postStatus s data t0) τ pre post hcon
      (by rw [hlu]; exact hτ) (by rw [hcs, hcd]; exact hpre)
    rw [hrun]
    exact ⟨by simp [getStateKey, markOffline], rfl, rfl, hra⟩
  · intro hD n hn
    obtain ⟨post', hpost⟩ := timerSchedule_split t0 n hn
    have hrun := runTimers_heartbeat_cancels (postStatus s data t0) (t0 + 65)
      (timerSchedule t0 64 ++ [TimerEvent.countdown (t0 + 65)]) post' hcon
      (by rw [hlu]; linarith)
      (by
        rw [hcs, hcd]
        intro e he
        rcases List.mem_append.1 he with he | he
        · have := timerSchedule_time_le t0 64 e he
          push_cast at this
          linarith
        · have he' : e = TimerEvent.countdown (t0 + 65) := by simpa using he
          rw [he']
          simp only [TimerEvent.time]
          linarith)
    rw [hpost, hrun]
    exact ⟨by simp [getStateKey, markOffline], rfl⟩

/-- Witness for C5 (as the code behaves): `{ motion: false }` at 130 on
`occupiedStatus`, then a countdown check at 131, heartbeat checks at 135 and
195 and a countdown check at 310. -/
theorem scenario2_countdown_then_offline_witness :
    getStateKey (postStatus occupiedStatus idleReport 130) = StateKey.COUNTDOWN
      ∧ getStateKey (runTimers (postStatus occupiedStatus idleReport 130)
          ([TimerEvent.countdown 131, TimerEvent.heartbeat 135]
            ++ TimerEvent.heartbeat 195 :: [TimerEvent.countdown 310]))
        = StateKey.OFFLINE :=
  ⟨(scenario2_countdown_then_offline occupiedStatus idleReport 130 195
      [TimerEvent.countdown 131, TimerEvent.heartbeat 135] [TimerEvent.countdown 310]
      rfl rfl rfl rfl (by norm_num)
      (by simp [TimerEvent.time, occupiedStatus]; norm_num)).1,
    (scenario2_countdown_then_offline occupiedStatus idleReport 130 195
      [TimerEvent.countdown 131, TimerEvent.heartbeat 135] [TimerEvent.countdown 310]
      rfl rfl rfl rfl (by norm_num)
      (by simp [TimerEvent.time, occupiedStatus]; norm_num)).2.1.1⟩

/-- C5 as stated fails: on `occupiedStatus`, after `{ motion: false }` at time
130 (label COUNTDOWN) and the timer runs of the following 180 seconds
(countdown checker every second, heartbeat checker every fifth second), the
label is OFFLINE and not IDLE, and `pending_command` is none and not
`relay_off`: the heartbeat check at 195 cancelled the countdown. -/
theorem scenario2_counterexample :
    occupiedStatus.device_connected = true
      ∧ occupiedStatus.forced_mode = false
      ∧ occupiedStatus.motion_detected = true
      ∧ occupiedStatus.relay_active = true
      ∧ occupiedStatus.countdown_duration = 180
      ∧ effectiveMotion idleReport = false
      ∧ getStateKey (postStatus occupiedStatus idleReport 130) = StateKey.COUNTDOWN
      ∧ getStateKey (runTimers (postStatus occupiedStatus idleReport 130)
          (timerSchedule 130 180)) = StateKey.OFFLINE
      ∧ (runTimers (postStatus occupiedStatus idleReport 130)
          (timerSchedule 130 180)).pending_command = none
      ∧ ¬ (getStateKey (runTimers (postStatus occupiedStatus idleReport 130)
            (timerSchedule 130 180)) = StateKey.IDLE
          ∧ (runTimers (postStatus occupiedStatus idleReport 130)
            (timerSchedule 130 180)).pending_command
              = some PendingCommand.relay_off) := by
  have hs1 : postStatus occupiedStatus idleReport 130 = countingStatus := by
    rw [postStatus_starts_countdown occupiedStatus idleReport 130 rfl rfl rfl rfl]
    rfl
  obtain ⟨post, hpost⟩ := timerSchedule_split 130 180 (by norm_num)
  have hrun : runTimers countingStatus (timerSchedule 130 180)
      = markOffline countingStatus := by
    rw [hpost]
    apply runTimers_heartbeat_cancels countingStatus (130 + 65) _ post rfl
    · norm_num [countingStatus]
    · intro e he
      rcases List.mem_append.1 he with he | he
      · have := timerSchedule_time_le 130 64 e he
        norm_num [countingStatus] at this ⊢
        linarith
      · have he' : e = TimerEvent.countdown (130 + 65) := by simpa using he
        rw [he']
        norm_num [TimerEvent.time, countingStatus]
  rw [hs1, hrun]
  refine ⟨rfl, rfl, rfl, rfl, by norm_num [occupiedStatus], rfl, ?_, ?_, rfl, ?_⟩
  · simp [getStateKey, countingStatus]
  · simp [getStateKey, markOffline]
  · simp [getStateKey, markOffline]

/-! ### Forced mode under reports -/

theorem runReports_nil (s : Status) : runReports s [] = s := rfl

theorem runReports_cons (s : Status) (r : StatusReport × ℚ)
    (rs : List (StatusReport × ℚ)) :
    runReports s (r :: rs) = runReports (postStatus s r.1 r.2) rs := rfl

/-- A report that does not change `motion_detected` from false to true keeps
forced mode. -/
theorem postStatus_keeps_forced (s : Status) (data : StatusReport) (now : ℚ)
    (hf : s.forced_mode = true)
    (hno : (!(!s.motion_detected && (postStatus s data now).motion_detected)) = true) :
    (postStatus s data now).forced_mode = true := by
  revert hno
  cases hm : s.motion_detected <;> cases hd : effectiveMotion data <;>
    cases ha : s.forced_release_armed <;>
    simp [postStatus, hf, hm, hd, ha]

theorem runReports_keeps_forced (rs : List (StatusReport × ℚ)) :
    ∀ s : Status, s.forced_mode = true → noRisingEdge s rs = true →
      (runReports s rs).forced_mode = true := by
  induction rs with
  | nil => intro s hf _; exact hf
  | cons r rs ih =>
    intro s hf hno
    simp only [noRisingEdge, Bool.and_eq_true] at hno
    rw [runReports_cons]
    exact ih _ (postStatus_keeps_forced s r.1 r.2 hf hno.1) hno.2

/-- A report with effective motion true on an occupied record changes only
`device_connected` and `last_update`. -/
theorem postStatus_same_motion_true (s : Status) (data : StatusReport) (now : ℚ)
    (hm : s.motion_detected = true) (hd : effectiveMotion data = true) :
    postStatus s data now = { s with device_connected := true, last_update := now } := by
  simp [postStatus, hm, hd]

theorem noRisingEdge_of_occupied (rs : List (StatusReport × ℚ)) :
    ∀ s : Status, s.motion_detected = true →
      (∀ r ∈ rs, effectiveMotion r.1 = true) → noRisingEdge s rs = true := by
  induction rs with
  | nil => intro s _ _; rfl
  | cons r rs ih =>
    intro s hm hall
    have hr := hall r (List.mem_cons_self r rs)
    have hstep := postStatus_same_motion_true s r.1 r.2 hm hr
    simp only [noRisingEdge, Bool.and_eq_true]
    refine ⟨by simp [hm], ih _ (by rw [hstep]; exact hm)
      (fun x hx => hall x (List.mem_cons_of_mem r hx))⟩

/-- C7: `keep_power` succeeds and yields `forced_mode = true`,
`forced_release_armed = !motion_detected` (of the prior record),
`countdown_active = false`, `relay_active = true` and
`pending_command = relay_on` whatever was pending, leaving `motion_detected`,
`device_connected`, `last_update`, `last_motion_time` and
`countdown_duration` unchanged. -/
theorem postCommand_keep_power (s : Status) (now : ℚ) :
    ∃ s1, postCommand s (some "keep_power") now = Except.ok s1
      ∧ s1.forced_mode = true
      ∧ s1.forced_release_armed = !s.motion_detected
      ∧ s1.countdown_active = false
      ∧ s1.relay_active = true
      ∧ s1.pending_command = some PendingCommand.relay_on
      ∧ s1.motion_detected = s.motion_detected
      ∧ s1.device_connected = s.device_connected
      ∧ s1.last_update = s.last_update
      ∧ s1.last_motion_time = s.last_motion_time
      ∧ s1.countdown_duration = s.countdown_duration :=
  ⟨{ s with
      forced_mode := true
      forced_release_armed := !s.motion_detected
      countdown_active := false
      relay_active := true
      pending_command := some PendingCommand.relay_on },
    by simp [postCommand], rfl, rfl, rfl, rfl, rfl, rfl, rfl, rfl, rfl, rfl⟩

/-- C8: `cancel_forced` at time `now` succeeds and clears `forced_mode` and
`forced_release_armed`; with `motion_detected` true it also sets
`relay_active = true` and `countdown_active = false`; with `motion_detected`
false it sets `countdown_active = true` and `countdown_start = now` and keeps
`relay_active`. It never changes `pending_command`. -/
theorem postCommand_cancel_forced (s : Status) (now : ℚ) :
    ∃ s1, postCommand s (some "cancel_forced") now = Except.ok s1
      ∧ s1.forced_mode = false
      ∧ s1.forced_release_armed = false
      ∧ (s.motion_detected = true →
          s1.relay_active = true ∧ s1.countdown_active = false)
      ∧ (s.motion_detected = false →
          s1.countdown_active = true ∧ s1.countdown_start = now
            ∧ s1.relay_active = s.relay_active)
      ∧ s1.pending_command = s.pending_command := by
  cases hm : s.motion_detected <;> simp [postCommand, hm]

/-- Witness for C8 on `countingStatus`, which is unoccupied with the relay on:
the relay stays on and the countdown is restarted at 150. -/
theorem postCommand_cancel_forced_witness :
    ∃ s1, postCommand countingStatus (some "cancel_forced") 150 = Except.ok s1
      ∧ s1.relay_active = true ∧ s1.countdown_active = true
      ∧ s1.countdown_start = 150 := by
  obtain ⟨s1, h, _, _, _, h4, _⟩ := postCommand_cancel_forced countingStatus 150
  exact ⟨s1, h, (h4 rfl).2.2.trans rfl, (h4 rfl).1, (h4 rfl).2.1⟩

/-- C9: the heartbeat checker at `now` sets `device_connected = false`,
`countdown_active = false` and `pending_command = none` when
`device_connected` is true and `now - last_update > 60`, leaving
`relay_active`, `forced_mode`, `forced_release_armed` and `motion_detected`
unchanged; in every other case (also `now - last_update = 60`) it leaves the
record unchanged. So after a check with `now - last_update > 60` the label is
OFFLINE whatever `relay_active` was. -/
theorem heartbeatCheck_timeout (s : Status) (now : ℚ) :
    (s.device_connected = true → now - s.last_update > 60 →
        (heartbeatCheck s now).device_connected = false
          ∧ (heartbeatCheck s now).countdown_active = false
          ∧ (heartbeatCheck s now).pending_command = none
          ∧ (heartbeatCheck s now).relay_active = s.relay_active
          ∧ (heartbeatCheck s now).forced_mode = s.forced_mode
          ∧ (heartbeatCheck s now).forced_release_armed = s.forced_release_armed
          ∧ (heartbeatCheck s now).motion_detected = s.motion_detected)
      ∧ (¬ (s.device_connected = true ∧ now - s.last_update > 60) →
          heartbeatCheck s now = s)
      ∧ (now - s.last_update = 60 → heartbeatCheck s now = s)
      ∧ (now - s.last_update > 60 →
          getStateKey (heartbeatCheck s now) = StateKey.OFFLINE) := by
  refine ⟨?_, ?_, ?_, ?_⟩
  · intro hc ht
    simp [heartbeatCheck, hc, ht]
  · intro hn
    have : ¬ ((s.device_connected && decide (now - s.last_update > 60)) = true) := by
      simpa using hn
    rw [heartbeatCheck, if_neg this]
  · intro h60
    simp [heartbeatCheck, h60]
  · intro ht
    cases hc : s.device_connected <;> simp [heartbeatCheck, getStateKey, hc, ht]

/-- Witness for C9 on `countingStatus` (last report at 130): nothing happens
at 190, and at 191 the record goes offline with the relay flag still on. -/
theorem heartbeatCheck_timeout_witness :
    heartbeatCheck countingStatus 190 = countingStatus
      ∧ (heartbeatCheck countingStatus 191).device_connected = false
      ∧ (heartbeatCheck countingStatus 191).relay_active = true
      ∧ getStateKey (heartbeatCheck countingStatus 191) = StateKey.OFFLINE :=
  ⟨(heartbeatCheck_timeout countingStatus 190).2.2.1 (by norm_num [countingStatus]),
    ((heartbeatCheck_timeout countingStatus 191).1 rfl
      (by norm_num [countingStatus])).1,
    (((heartbeatCheck_timeout countingStatus 191).1 rfl
      (by norm_num [countingStatus])).2.2.2.1).trans rfl,
    (heartbeatCheck_timeout countingStatus 191).2.2.2 (by norm_num [countingStatus])⟩

/-- C10: the device poll returns the prior `pending_command`, leaves
`pending_command = none` and changes no other field; a second poll with
nothing in between returns no command. -/
theorem getCommand_at_most_once (s : Status) :
    (getCommand s).1 = s.pending_command
      ∧ (getCommand s).2.pending_command = none
      ∧ (getCommand s).2 = { s with pending_command := none }
      ∧ (getCommand (getCommand s).2).1 = none := by
  cases hp : s.pending_command with
  | none =>
    have hs : { s with pending_command := none } = s := by
      cases s; simp_all
    simp [getCommand, hp, hs]
  | some c => simp [getCommand, hp]

/-! ### Relay mirror -/

/-- The relay mirror answers "0" exactly on the label IDLE, and reading it
leaves the record as it is. -/
theorem getRelayState_eq_zero_iff (s : Status) :
    (getRelayState s = "0" ↔ getStateKey s = StateKey.IDLE)
      ∧ ∀ cfgDeviceId : String, step cfgDeviceId s Event.relayRead = s := by
  refine ⟨?_, fun _ => rfl⟩
  unfold getRelayState
  by_cases h : getStateKey s = StateKey.IDLE <;> simp [h]

/-- C11 (code at the failing inputs): the relay mirror does not follow
`relay_active` on reachable records. After a presence report and the operator
command `power_off` the record has `relay_active = false` and
`pending_command = relay_off`, yet the mirror answers "1" (label SOMEONE).
After presence, absence, a heartbeat timeout and a further absence report the
record has `relay_active = true`, yet the mirror answers "0" (label IDLE). On
the initial record `relay_active` is false and the mirror answers "1" (label
OFFLINE). -/
theorem getRelayState_mismatch :
    ((run "esp32_smart_guardian" (currentStatus 0)
        [Event.report motionReport 100,
          Event.command (some "power_off") 110]).relay_active = false
      ∧ (run "esp32_smart_guardian" (currentStatus 0)
        [Event.report motionReport 100,
          Event.command (some "power_off") 110]).pending_command
          = some PendingCommand.relay_off
      ∧ getRelayState (run "esp32_smart_guardian" (currentStatus 0)
        [Event.report motionReport 100,
          Event.command (some "power_off") 110]) = "1")
    ∧ ((run "esp32_smart_guardian" (currentStatus 0)
        [Event.report motionReport 100, Event.report idleReport 130,
          Event.heartbeatTick 195, Event.report idleReport 200]).relay_active = true
      ∧ getRelayState (run "esp32_smart_guardian" (currentStatus 0)
        [Event.report motionReport 100, Event.report idleReport 130,
          Event.heartbeatTick 195, Event.report idleReport 200]) = "0")
    ∧ ((currentStatus 0).relay_active = false
      ∧ getRelayState (currentStatus 0) = "1") := by
  have h1 : run "esp32_smart_guardian" (currentStatus 0)
      [Event.report motionReport 100, Event.command (some "power_off") 110]
      = { currentStatus 0 with
          device_connected := true
          motion_detected := true
          last_update := 100
          last_motion_time := 100
          pending_command := some PendingCommand.relay_off } := by
    simp [run, step, commandHandler, postCommand, postStatus, effectiveMotion,
      reportFlags, motionReport, currentStatus]
  have h2 : run "esp32_smart_guardian" (currentStatus 0)
      [Event.report motionReport 100, Event.report idleReport 130,
        Event.heartbeatTick 195, Event.report idleReport 200]
      = { currentStatus 0 with
          device_connected := true
          relay_active := true
          last_update := 200
          last_motion_time := 100
          countdown_start := 130 } := by
    simp [run, step, postStatus, heartbeatCheck, effectiveMotion,
      reportFlags, motionReport, idleReport, currentStatus]
    norm_num
  rw [h1, h2]
  simp [getRelayState, getStateKey, currentStatus]

/-! ### Operator commands -/

/-- C12: for every command value other than `keep_power`, `cancel_forced`,
`power_off` and `reset` (a missing or empty command included) the operator
command handler answers with an error (HTTP 400, `success: false`), leaves the
record unchanged and makes no storage call, so no log entry is emitted. -/
theorem commandHandler_rejects_unknown (cfgDeviceId : String) (s : Status)
    (command : Option String) (now : ℚ)
    (h1 : command ≠ some "keep_power") (h2 : command ≠ some "cancel_forced")
    (h3 : command ≠ some "power_off") (h4 : command ≠ some "reset") :
    (∃ msg, postCommand s command now = Except.error msg)
      ∧ (commandHandler cfgDeviceId s command now).1.success = false
      ∧ (commandHandler cfgDeviceId s command now).1.httpStatus = 400
      ∧ (commandHandler cfgDeviceId s command now).2.1 = s
      ∧ (commandHandler cfgDeviceId s command now).2.2 = [] := by
  have herr : ∃ msg, postCommand s command now = Except.error msg := by
    cases command with
    | none => exact ⟨_, rfl⟩
    | some c =>
      have c1 : c ≠ "keep_power" := fun h => h1 (by rw [h])
      have c2 : c ≠ "cancel_forced" := fun h => h2 (by rw [h])
      have c3 : c ≠ "power_off" := fun h => h3 (by rw [h])
      have c4 : c ≠ "reset" := fun h => h4 (by rw [h])
      by_cases h0 : c = ""
      · exact ⟨"Missing command", by simp [postCommand, h0]⟩
      · exact ⟨"Unknown command", by simp [postCommand, h0, c1, c2, c3, c4]⟩
  obtain ⟨msg, hmsg⟩ := herr
  refine ⟨⟨msg, hmsg⟩, ?_, ?_, ?_, ?_⟩ <;> simp [commandHandler, hmsg]

/-- Witness for C12: the command `open_window` on `occupiedStatus`. -/
theorem commandHandler_rejects_unknown_witness :
    (commandHandler "esp32_smart_guardian" occupiedStatus (some "open_window") 140).2.1
        = occupiedStatus
      ∧ (commandHandler "esp32_smart_guardian" occupiedStatus
          (some "open_window") 140).2.2 = [] :=
  ⟨(commandHandler_rejects_unknown "esp32_smart_guardian" occupiedStatus
      (some "open_window") 140 (by decide) (by decide) (by decide) (by decide)).2.2.2.1,
    (commandHandler_rejects_unknown "esp32_smart_guardian" occupiedStatus
      (some "open_window") 140 (by decide) (by decide) (by decide) (by decide)).2.2.2.2⟩

/-! ### Forced mode and countdown exclude each other -/

theorem run_nil (cfgDeviceId : String) (s : Status) : run cfgDeviceId s [] = s := rfl

theorem run_cons (cfgDeviceId : String) (s : Status) (e : Event) (evs : List Event) :
    run cfgDeviceId s (e :: evs) = run cfgDeviceId (step cfgDeviceId s e) evs := rfl

/-- The record after the operator command handler is the one `postCommand`
returns, or the old one when `postCommand` fails. -/
theorem commandHandler_status (cfgDeviceId : String) (s : Status)
    (command : Option String) (now : ℚ) :
    (commandHandler cfgDeviceId s command now).2.1
      = (match postCommand s command now with
        | Except.ok s1 => s1
        | Except.error _ => s) := by
  unfold commandHandler
  cases postCommand s command now <;> rfl

/-- `postCommand` keeps forced mode and countdown from being both active: it
never sets both. -/
theorem postCommand_exclusive (s s1 : Status) (command : Option String) (now : ℚ)
    (h : postCommand s command now = Except.ok s1) :
    ¬ (s1.forced_mode = true ∧ s1.countdown_active = true) := by
  cases command with
  | none => simp [postCommand] at h
  | some c =>
    unfold postCommand at h
    simp only at h
    split_ifs at h <;> cases h <;> simp

/-- Every event keeps forced mode and countdown from being both active. -/
theorem step_exclusive (cfgDeviceId : String) (s : Status) (e : Event)
    (h : ¬ (s.forced_mode = true ∧ s.countdown_active = true)) :
    ¬ ((step cfgDeviceId s e).forced_mode = true
        ∧ (step cfgDeviceId s e).countdown_active = true) := by
  cases e with
  | report data now =>
    revert h
    cases hf : s.forced_mode <;> cases hc : s.countdown_active <;>
      cases hm : s.motion_detected <;> cases hd : effectiveMotion data <;>
      cases ha : s.forced_release_armed <;> cases hr : s.relay_active <;>
      simp [step, postStatus, hf, hc, hm, hd, ha, hr]
  | command command now =>
    simp only [step, commandHandler_status]
    cases hp : postCommand s command now with
    | error msg => exact h
    | ok s1 => exact postCommand_exclusive s s1 command now hp
  | poll =>
    revert h
    cases hp : s.pending_command <;> simp [step, getCommand, hp]
  | relayRead => exact h
  | countdownTick now =>
    revert h
    simp only [step, countdownCheck]
    split_ifs <;> simp
  | heartbeatTick now =>
    revert h
    simp only [step, heartbeatCheck]
    split_ifs <;> simp

theorem run_exclusive (cfgDeviceId : String) (evs : List Event) :
    ∀ s : Status, ¬ (s.forced_mode = true ∧ s.countdown_active = true) →
      ¬ ((run cfgDeviceId s evs).forced_mode = true
          ∧ (run cfgDeviceId s evs).countdown_active = true) := by
  induction evs with
  | nil => intro s h; exact h
  | cons e evs ih =>
    intro s h
    rw [run_cons]
    exact ih _ (step_exclusive cfgDeviceId s e h)

/-- C13: in every record reachable from the initial record by any
interleaving of reports, operator commands, device polls, relay mirror reads,
countdown-checker runs and heartbeat-checker runs, `forced_mode` and
`countdown_active` are never both true. -/
theorem forced_countdown_exclusive (s : Status) (h : Reachable s) :
    ¬ (s.forced_mode = true ∧ s.countdown_active = true) := by
  obtain ⟨cfgDeviceId, boot, evs, hrun⟩ := h
  rw [← hrun]
  exact run_exclusive cfgDeviceId evs (currentStatus boot) (by simp [currentStatus])

/-- Witness for C13: the record after a presence report, `keep_power` and an
absence report is reachable. -/
theorem forced_countdown_exclusive_witness :
    Reachable (run "esp32_smart_guardian" (currentStatus 0)
        [Event.report motionReport 100, Event.command (some "keep_power") 110,
          Event.report idleReport 130])
      ∧ ¬ ((run "esp32_smart_guardian" (currentStatus 0)
            [Event.report motionReport 100, Event.command (some "keep_power") 110,
              Event.report idleReport 130]).forced_mode = true
          ∧ (run "esp32_smart_guardian" (currentStatus 0)
            [Event.report motionReport 100, Event.command (some "keep_power") 110,
              Event.report idleReport 130]).countdown_active = true) :=
  ⟨⟨_, _, _, rfl⟩, forced_countdown_exclusive _ ⟨_, _, _, rfl⟩⟩

/-! ### Frame properties of the report handler -/

/-- The effective motion of a report does not depend on its `relay` field. -/
theorem effectiveMotion_relay (data : StatusReport) (b : Bool) :
    effectiveMotion { data with relay := b } = effectiveMotion data := by
  simp only [effectiveMotion, reportFlags]
  split_ifs <;> rfl

/-- C14: two reports handled at the same time with the same effective motion
leave the same record, whatever relay value the device reported: the `relay`
field of the body is irrelevant, and so is situation code 2 versus 3. In
particular `relay_active` after a report does not depend on the reported
relay value. -/
theorem postStatus_ignores_reported_relay (s : Status) (d1 d2 : StatusReport)
    (now : ℚ) (h : effectiveMotion d1 = effectiveMotion d2) :
    postStatus s d1 now = postStatus s d2 now
      ∧ (postStatus s d1 now).relay_active = (postStatus s d2 now).relay_active
      ∧ (∀ b : Bool, postStatus s { d1 with relay := b } now = postStatus s d1 now)
      ∧ postStatus s { d1 with situation := some 2 } now
          = postStatus s { d1 with situation := some 3 } now := by
  have key : ∀ a b : StatusReport, effectiveMotion a = effectiveMotion b →
      postStatus s a now = postStatus s b now := by
    intro a b hab
    simp only [postStatus, hab]
  refine ⟨key d1 d2 h, by rw [key d1 d2 h], ?_, ?_⟩
  · intro b
    exact key _ _ (effectiveMotion_relay d1 b)
  · exact key _ _ (by simp [effectiveMotion, reportFlags])

/-- Witness for C14: situation code 2 ("nobody, light on") and situation code
3 ("nobody, light off") on `occupiedStatus` at time 130. -/
theorem postStatus_ignores_reported_relay_witness :
    effectiveRelay { idleReport with situation := some 2 }
        ≠ effectiveRelay { idleReport with situation := some 3 }
      ∧ postStatus occupiedStatus { idleReport with situation := some 2 } 130
        = postStatus occupiedStatus { idleReport with situation := some 3 } 130 :=
  ⟨by decide,
    (postStatus_ignores_reported_relay occupiedStatus
      { idleReport with situation := some 2 } { idleReport with situation := some 3 }
      130 rfl).1⟩

/-- C15: a report whose effective motion equals the current
`motion_detected` changes only `device_connected` (to true) and `last_update`
(to `now`); `motion_detected`, `relay_active`, `countdown_active`,
`countdown_start`, `pending_command`, `forced_mode`, `forced_release_armed`
and `last_motion_time` are unchanged. -/
theorem postStatus_unchanged_motion_frame (s : Status) (data : StatusReport) (now : ℚ)
    (h : effectiveMotion data = s.motion_detected) :
    postStatus s data now = { s with device_connected := true, last_update := now }
      ∧ (postStatus s data now).device_connected = true
      ∧ (postStatus s data now).last_update = now
      ∧ (postStatus s data now).motion_detected = s.motion_detected
      ∧ (postStatus s data now).relay_active = s.relay_active
      ∧ (postStatus s data now).countdown_active = s.countdown_active
      ∧ (postStatus s data now).countdown_start = s.countdown_start
      ∧ (postStatus s data now).pending_command = s.pending_command
      ∧ (postStatus s data now).forced_mode = s.forced_mode
      ∧ (postStatus s data now).forced_release_armed = s.forced_release_armed
      ∧ (postStatus s data now).last_motion_time = s.last_motion_time := by
  have heq : postStatus s data now
      = { s with device_connected := true, last_update := now } := by
    simp [postStatus, h]
  rw [heq]
  exact ⟨rfl, rfl, rfl, rfl, rfl, rfl, rfl, rfl, rfl, rfl, rfl⟩

/-- Witness for C15: a second `{ motion: true }` report on `occupiedStatus`. -/
theorem postStatus_unchanged_motion_frame_witness :
    postStatus occupiedStatus motionReport 105
      = { occupiedStatus with device_connected := true, last_update := 105 } :=
  (postStatus_unchanged_motion_frame occupiedStatus motionReport 105 rfl).1

/-- C16: `reset` succeeds and sets `motion_detected`, `relay_active`,
`countdown_active`, `forced_mode` and `forced_release_armed` to false and
`pending_command` to none, leaving `device_connected` and `last_update`
unchanged. -/
theorem postCommand_reset (s : Status) (now : ℚ) :
    ∃ s1, postCommand s (some "reset") now = Except.ok s1
      ∧ s1.motion_detected = false
      ∧ s1.relay_active = false
      ∧ s1.countdown_active = false
      ∧ s1.forced_mode = false
      ∧ s1.forced_release_armed = false
      ∧ s1.pending_command = none
      ∧ s1.device_connected = s.device_connected
      ∧ s1.last_update = s.last_update :=
  ⟨{ s with
      motion_detected := false
      relay_active := false
      countdown_active := false
      pending_command := none
      forced_mode := false
      forced_release_armed := false },
    by simp [postCommand], rfl, rfl, rfl, rfl, rfl, rfl, rfl, rfl⟩

/-- C17: end-to-end scenario 3. On a connected record with
`motion_detected = false`, `keep_power` gives the label FORCED and
`forced_release_armed = true`; a following report with motion true gives
`forced_mode = false`, `forced_release_armed = false` and the label
SOMEONE. -/
theorem scenario3_forced_release (s : Status) (data : StatusReport) (now1 now2 : ℚ)
    (hc : s.device_connected = true) (hm : s.motion_detected = false)
    (hd : effectiveMotion data = true) :
    ∃ s1, postCommand s (some "keep_power") now1 = Except.ok s1
      ∧ getStateKey s1 = StateKey.FORCED
      ∧ s1.forced_release_armed = true
      ∧ (postStatus s1 data now2).forced_mode = false
      ∧ (postStatus s1 data now2).forced_release_armed = false
      ∧ getStateKey (postStatus s1 data now2) = StateKey.SOMEONE := by
  refine ⟨{ s with
      forced_mode := true
      forced_release_armed := !s.motion_detected
      countdown_active := false
      relay_active := true
      pending_command := some PendingCommand.relay_on }, by simp [postCommand], ?_⟩
  simp [getStateKey, postStatus, hc, hm, hd]

/-- Witness for C17: `keep_power` at 140 on a connected, unoccupied record
with the relay off, then `{ motion: true }` at 150. -/
theorem scenario3_forced_release_witness :
    ∃ s1, postCommand { occupiedStatus with motion_detected := false, relay_active := false }
        (some "keep_power") 140 = Except.ok s1
      ∧ getStateKey s1 = StateKey.FORCED
      ∧ getStateKey (postStatus s1 motionReport 150) = StateKey.SOMEONE := by
  obtain ⟨s1, h1, h2, _, _, _, h6⟩ := scenario3_forced_release
    { occupiedStatus with motion_detected := false, relay_active := false }
    motionReport 140 150 rfl rfl rfl
  exact ⟨s1, h1, h2, h6⟩

/-! ### Label-change logger and the decision trail -/

/-- C19: `logStateChange` makes no storage call when the old and the new
label are equal; when they differ it makes exactly one `db.log` call, whose
level is ERROR for OFFLINE, WARN for FORCED and COUNTDOWN, and INFO for
SOMEONE and IDLE. -/
theorem logStateChange_levels (oldState newState : StateKey)
    (deviceId : Option String) (cfgDeviceId : String) :
    (oldState = newState →
        logStateChange oldState newState deviceId cfgDeviceId = [])
      ∧ (oldState ≠ newState →
          ∃ message,
            logStateChange oldState newState deviceId cfgDeviceId
              = [DbCall.log (orDefault deviceId cfgDeviceId)
                  (match newState with
                    | StateKey.OFFLINE => LogLevel.ERROR
                    | StateKey.FORCED => LogLevel.WARN
                    | StateKey.COUNTDOWN => LogLevel.WARN
                    | StateKey.SOMEONE => LogLevel.INFO
                    | StateKey.IDLE => LogLevel.INFO)
                  message]) := by
  constructor
  · intro h
    simp [logStateChange, h]
  · intro h
    cases newState <;> simp [logStateChange, h]

/-- Witness for C19: no call for IDLE to IDLE, one ERROR entry for IDLE to
OFFLINE. -/
theorem logStateChange_levels_witness :
    logStateChange StateKey.IDLE StateKey.IDLE none "esp32_smart_guardian" = []
      ∧ ∃ message,
          logStateChange StateKey.IDLE StateKey.OFFLINE none "esp32_smart_guardian"
            = [DbCall.log "esp32_smart_guardian" LogLevel.ERROR message] :=
  ⟨(logStateChange_levels StateKey.IDLE StateKey.IDLE none "esp32_smart_guardian").1 rfl,
    (logStateChange_levels StateKey.IDLE StateKey.OFFLINE none "esp32_smart_guardian").2
      (by decide)⟩

/-- The label-change logger makes at most one storage call and never calls
`db.recordDecision`. -/
theorem logStateChange_no_decision (oldState newState : StateKey)
    (deviceId : Option String) (cfgDeviceId : String) :
    (logStateChange oldState newState deviceId cfgDeviceId).length ≤ 1
      ∧ (logStateChange oldState newState deviceId cfgDeviceId).countP
          DbCall.isRecordDecision = 0 := by
  unfold logStateChange
  split_ifs <;> simp [DbCall.isRecordDecision]

/-- C18 (as the code behaves): each of the four supported commands succeeds,
and the storage calls of the handler are exactly those of the label-change
logger run on the label before and the label after: at most one `db.log`
call, and no `db.recordDecision` call. The handler appends nothing to the
decision audit trail. -/
theorem commandHandler_logs_only (cfgDeviceId : String) (s : Status)
    (command : String) (now : ℚ)
    (h : command = "keep_power" ∨ command = "cancel_forced"
      ∨ command = "power_off" ∨ command = "reset") :
    (commandHandler cfgDeviceId s (some command) now).1.success = true
      ∧ (commandHandler cfgDeviceId s (some command) now).2.2
          = logStateChange (getStateKey s)
              (getStateKey (commandHandler cfgDeviceId s (some command) now).2.1)
              (some cfgDeviceId) cfgDeviceId
      ∧ (commandHandler cfgDeviceId s (some command) now).2.2.length ≤ 1
      ∧ (commandHandler cfgDeviceId s (some command) now).2.2.countP
          DbCall.isRecordDecision = 0 := by
  have hok : ∃ s1, postCommand s (some command) now = Except.ok s1 := by
    rcases h with h | h | h | h <;> subst h
    · simp [postCommand]
    · cases hm : s.motion_detected <;> simp [postCommand, hm]
    · simp [postCommand]
    · simp [postCommand]
  obtain ⟨s1, hs1⟩ := hok
  have hcalls : (commandHandler cfgDeviceId s (some command) now).2.2
      = logStateChange (getStateKey s) (getStateKey s1) (some cfgDeviceId)
          cfgDeviceId := by
    simp [commandHandler, hs1]
  have hst : (commandHandler cfgDeviceId s (some command) now).2.1 = s1 := by
    simp [commandHandler, hs1]
  refine ⟨by simp [commandHandler, hs1], by rw [hcalls, hst], ?_, ?_⟩
  · rw [hcalls]
    exact (logStateChange_no_decision _ _ _ _).1
  · rw [hcalls]
    exact (logStateChange_no_decision _ _ _ _).2

/-- Witness for C18 (as the code behaves): `keep_power` on `occupiedStatus`. -/
theorem commandHandler_logs_only_witness :
    (commandHandler "esp32_smart_guardian" occupiedStatus (some "keep_power") 140).1.success
        = true
      ∧ (commandHandler "esp32_smart_guardian" occupiedStatus
          (some "keep_power") 140).2.2.countP DbCall.isRecordDecision = 0 :=
  ⟨(commandHandler_logs_only "esp32_smart_guardian" occupiedStatus "keep_power" 140
      (Or.inl rfl)).1,
    (commandHandler_logs_only "esp32_smart_guardian" occupiedStatus "keep_power" 140
      (Or.inl rfl)).2.2.2⟩

/-- C18 as stated fails: `keep_power` on the connected, unoccupied, idle
record succeeds and changes the label from IDLE to FORCED; the handler makes
one `db.log` call for the label change and no `db.recordDecision` call, so the
number of records appended to the decision trail is 0 and not 1. -/
theorem commandHandler_decision_counterexample :
    (commandHandler "esp32_smart_guardian"
        { occupiedStatus with motion_detected := false, relay_active := false }
        (some "keep_power") 140).1.success = true
      ∧ (commandHandler "esp32_smart_guardian"
        { occupiedStatus with motion_detected := false, relay_active := false }
        (some "keep_power") 140).2.2
          = [DbCall.log "esp32_smart_guardian" LogLevel.WARN "状态更新：强制开灯"]
      ∧ (commandHandler "esp32_smart_guardian"
        { occupiedStatus with motion_detected := false, relay_active := false }
        (some "keep_power") 140).2.2.countP DbCall.isRecordDecision ≠ 1 := by
  have hcalls : (commandHandler "esp32_smart_guardian"
      { occupiedStatus with motion_detected := false, relay_active := false }
      (some "keep_power") 140).2.2
        = [DbCall.log "esp32_smart_guardian" LogLevel.WARN "状态更新：强制开灯"] := by
    simp [commandHandler, postCommand, logStateChange, getStateKey, occupiedStatus,
      orDefault]
  refine ⟨by simp [commandHandler, postCommand], hcalls, ?_⟩
  rw [hcalls]
  simp [DbCall.isRecordDecision]

/-! ### History retention -/

/-- The rows left by the `DELETE` are, up to order, the first `limit` rows of
the `ORDER BY ts DESC` result. -/
theorem pruneHistory_perm (orderBy : List HistoryRow → List HistoryRow)
    (horder : OrdersByTsDesc orderBy) (limit : Nat) (rows : List HistoryRow)
    (hnd : (rows.map HistoryRow.id).Nodup) :
    (pruneHistory orderBy limit rows).Perm ((orderBy rows).take limit) := by
  have hperm := (horder rows).1
  have hrows : rows.Nodup := List.Nodup.of_map HistoryRow.id hnd
  have hsorted : (orderBy rows).Nodup := hperm.nodup_iff.2 hrows
  have htake : ((orderBy rows).take limit).Nodup :=
    List.Nodup.sublist (List.take_sublist limit (orderBy rows)) hsorted
  have hfilter : (pruneHistory orderBy limit rows).Nodup :=
    List.Nodup.filter _ hrows
  rw [List.perm_ext_iff_of_nodup hfilter htake]
  intro a
  simp only [pruneHistory, List.mem_filter, decide_eq_true_eq, List.mem_map]
  constructor
  · rintro ⟨ha, b, hb, hba⟩
    have hbrows : b ∈ rows := hperm.subset (List.mem_of_mem_take hb)
    have : b = a := List.inj_on_of_nodup_map hnd hbrows ha hba
    rw [← this]
    exact hb
  · intro ha
    exact ⟨hperm.subset (List.mem_of_mem_take ha), a, ha, rfl⟩

/-- Every row the `DELETE` removes has a `ts` no larger than that of every
row it leaves. -/
theorem pruneHistory_removes_oldest (orderBy : List HistoryRow → List HistoryRow)
    (horder : OrdersByTsDesc orderBy) (limit : Nat) (rows : List HistoryRow)
    (hnd : (rows.map HistoryRow.id).Nodup) :
    ∀ r ∈ rows, r ∉ pruneHistory orderBy limit rows →
      ∀ k ∈ pruneHistory orderBy limit rows, r.ts ≤ k.ts := by
  intro r hr hrem k hk
  have hperm := (horder rows).1
  have hp := pruneHistory_perm orderBy horder limit rows hnd
  have hk' : k ∈ (orderBy rows).take limit := hp.subset hk
  have hr' : r ∉ (orderBy rows).take limit := fun h => hrem (hp.symm.subset h)
  have hsplit : r ∈ (orderBy rows).take limit ++ (orderBy rows).drop limit := by
    rw [List.take_append_drop]
    exact hperm.symm.subset hr
  have hrdrop : r ∈ (orderBy rows).drop limit := by
    rcases List.mem_append.1 hsplit with h | h
    · exact absurd h hr'
    · exact h
  have hpw := (horder rows).2
  rw [← List.take_append_drop limit (orderBy rows), List.pairwise_append] at hpw
  exact hpw.2.2 k hk' r hrdrop

/-- When the `INSERT` is executed before the `DELETE`: on a table of at most
28800 rows, `addStatusSample` leaves at most 28800 rows (exactly `min (n + 1) 28800`, so at most one row goes), all taken
from the old rows and the new sample, in their old order; every row removed has a `ts` no larger than
every row kept, so when the cap is exceeded the rows kept are the 28800 with
the largest `ts`. The schema guarantees of the table are preserved. -/
theorem addStatusSample_retention (orderBy : List HistoryRow → List HistoryRow)
    (horder : OrdersByTsDesc orderBy) (t : HistoryTable) (state : StateKey)
    (tsSeconds : ℚ) (hwf : t.WF) (hlen : t.rows.length ≤ 28800) :
    (addStatusSample orderBy RunOrder.insertFirst t state tsSeconds).rows.length ≤ 28800
      ∧ (addStatusSample orderBy RunOrder.insertFirst t state tsSeconds).rows.length
          = min (t.rows.length + 1) 28800
      ∧ t.rows.length ≤ (addStatusSample orderBy RunOrder.insertFirst t state tsSeconds).rows.length
      ∧ (addStatusSample orderBy RunOrder.insertFirst t state tsSeconds).rows.Sublist
          (t.rows ++ [{ id := t.seq + 1, ts := tsSeconds, state := state }])
      ∧ (∀ r ∈ t.rows ++ [{ id := t.seq + 1, ts := tsSeconds, state := state }],
          r ∉ (addStatusSample orderBy RunOrder.insertFirst t state tsSeconds).rows →
          ∀ k ∈ (addStatusSample orderBy RunOrder.insertFirst t state tsSeconds).rows, r.ts ≤ k.ts)
      ∧ (addStatusSample orderBy RunOrder.insertFirst t state tsSeconds).WF := by
  have hnd : ((t.rows ++ [({ id := t.seq + 1, ts := tsSeconds, state := state }
      : HistoryRow)]).map HistoryRow.id).Nodup := by
    rw [List.map_append, List.nodup_append]
    refine ⟨hwf.1, by simp, ?_⟩
    intro a ha hb
    simp only [List.map_cons, List.map_nil, List.mem_singleton] at hb
    obtain ⟨r, hr, hra⟩ := List.mem_map.1 ha
    have := hwf.2 r hr
    omega
  have hp := pruneHistory_perm orderBy horder 28800 _ hnd
  have hlen' : (addStatusSample orderBy RunOrder.insertFirst t state tsSeconds).rows.length
      = min (t.rows.length + 1) 28800 := by
    simp only [addStatusSample]
    rw [hp.length_eq, List.length_take, ((horder _).1).length_eq]
    simp [Nat.min_comm]
  refine ⟨by rw [hlen']; exact Nat.min_le_right _ _, hlen', ?_, ?_, ?_, ?_⟩
  · rw [hlen']
    omega
  · exact List.filter_sublist _
  · exact pruneHistory_removes_oldest orderBy horder 28800 _ hnd
  · constructor
    · exact List.Nodup.sublist
        (List.Sublist.map HistoryRow.id (List.filter_sublist _)) hnd
    · intro r hr
      have hmem : r ∈ t.rows ++ [({ id := t.seq + 1, ts := tsSeconds, state := state }
          : HistoryRow)] := (List.filter_sublist _).subset hr
      simp only [addStatusSample]
      rcases List.mem_append.1 hmem with h | h
      · have := hwf.2 r h
        omega
      · rw [List.mem_singleton.1 h]

/-- The insertion sort by decreasing `ts` is an `ORDER BY ts DESC`. -/
theorem orderByTsDesc_spec : OrdersByTsDesc orderByTsDesc := by
  intro l
  refine ⟨List.perm_insertionSort _ l, ?_⟩
  exact @List.sorted_insertionSort HistoryRow (fun a b => b.ts ≤ a.ts) _
    ⟨fun a b => le_total b.ts a.ts⟩ ⟨fun _ _ _ hab hbc => le_trans hbc hab⟩ l

theorem sampleTable_wf : sampleTable.WF := by
  constructor
  · simp [sampleTable]
  · intro r hr
    simp only [sampleTable, List.mem_cons, List.mem_singleton, List.not_mem_nil,
      or_false] at hr
    rcases hr with h | h | h <;> rw [h] <;> simp [sampleTable]

/-- A fourth sample added to `sampleTable`, the `INSERT` executed first. -/
theorem addStatusSample_retention_witness :
    sampleTable.WF ∧ sampleTable.rows.length ≤ 28800
      ∧ (addStatusSample orderByTsDesc RunOrder.insertFirst sampleTable StateKey.IDLE 12).rows.length
          = min (sampleTable.rows.length + 1) 28800 :=
  ⟨sampleTable_wf, by decide,
    (addStatusSample_retention orderByTsDesc orderByTsDesc_spec sampleTable
      StateKey.IDLE 12 sampleTable_wf (by decide)).2.1⟩

/-- The pruning statement at work with a limit of 2 on the three rows of
`sampleTable`: the row with the smallest `ts` goes. -/
theorem pruneHistory_example :
    pruneHistory orderByTsDesc 2 sampleTable.rows
      = [{ id := 2, ts := 6, state := StateKey.SOMEONE },
          { id := 3, ts := 9, state := StateKey.SOMEONE }] := by
  simp [pruneHistory, orderByTsDesc, sampleTable, List.insertionSort,
    List.orderedInsert]
  norm_num [List.filter]

/-! ### The arm flag is set only in forced mode -/

/-- After a successful operator command the arm flag is set only in forced
mode. -/
theorem postCommand_armed (s s1 : Status) (command : Option String) (now : ℚ)
    (h : postCommand s command now = Except.ok s1) :
    s1.forced_release_armed = true → s1.forced_mode = true := by
  cases command with
  | none => simp [postCommand] at h
  | some c =>
    unfold postCommand at h
    simp only at h
    split_ifs at h <;> cases h <;> simp

/-- Every event keeps the arm flag from being set outside forced mode,
provided forced mode and countdown are not both active before it: the
countdown checker clears `forced_mode` without touching the arm flag, but it
fires only while the countdown is active, when forced mode, and with it the
arm flag, is already off. -/
theorem step_armed (cfgDeviceId : String) (s : Status) (e : Event)
    (ha : s.forced_release_armed = true → s.forced_mode = true)
    (hx : ¬ (s.forced_mode = true ∧ s.countdown_active = true)) :
    (step cfgDeviceId s e).forced_release_armed = true →
      (step cfgDeviceId s e).forced_mode = true := by
  cases e with
  | report data now =>
    revert ha
    cases hf : s.forced_mode <;> cases hm : s.motion_detected <;>
      cases hd : effectiveMotion data <;> cases hr : s.forced_release_armed <;>
      cases hl : s.relay_active <;>
      simp [step, postStatus, hf, hm, hd, hr, hl]
  | command command now =>
    simp only [step, commandHandler_status]
    cases hp : postCommand s command now with
    | error msg => exact ha
    | ok s1 => exact postCommand_armed s s1 command now hp
  | poll =>
    revert ha
    cases hp : s.pending_command <;> simp [step, getCommand, hp]
  | relayRead => exact ha
  | countdownTick now =>
    simp only [step, countdownCheck]
    split_ifs with h1 h2
    · intro harm
      have hf : s.forced_mode = true := ha harm
      exact absurd ⟨hf, h1⟩ hx
    · exact ha
    · exact ha
  | heartbeatTick now =>
    revert ha
    simp only [step, heartbeatCheck]
    split_ifs <;> simp

theorem run_armed (cfgDeviceId : String) (evs : List Event) :
    ∀ s : Status, (s.forced_release_armed = true → s.forced_mode = true) →
      ¬ (s.forced_mode = true ∧ s.countdown_active = true) →
      ((run cfgDeviceId s evs).forced_release_armed = true →
        (run cfgDeviceId s evs).forced_mode = true) := by
  induction evs with
  | nil => intro s ha _; exact ha
  | cons e evs ih =>
    intro s ha hx
    rw [run_cons]
    exact ih _ (step_armed cfgDeviceId s e ha hx) (step_exclusive cfgDeviceId s e hx)

/-- C21: in every record reachable from the initial record by any
interleaving of reports, operator commands, device polls, relay mirror reads,
countdown-checker runs and heartbeat-checker runs,
`forced_release_armed = true` implies `forced_mode = true`. This also holds
right after a countdown-checker run on such a record, although that run
clears `forced_mode` without touching the arm flag. -/
theorem armed_implies_forced (s : Status) (h : Reachable s) :
    (s.forced_release_armed = true → s.forced_mode = true)
      ∧ ∀ now : ℚ, (countdownCheck s now).forced_release_armed = true →
          (countdownCheck s now).forced_mode = true := by
  obtain ⟨cfgDeviceId, boot, evs, hrun⟩ := h
  have h0a : (currentStatus boot).forced_release_armed = true →
      (currentStatus boot).forced_mode = true := by simp [currentStatus]
  have h0x : ¬ ((currentStatus boot).forced_mode = true
      ∧ (currentStatus boot).countdown_active = true) := by simp [currentStatus]
  have ha := run_armed cfgDeviceId evs (currentStatus boot) h0a h0x
  have hx := run_exclusive cfgDeviceId evs (currentStatus boot) h0x
  rw [hrun] at ha hx
  exact ⟨ha, fun now => step_armed cfgDeviceId s (Event.countdownTick now) ha hx⟩

/-- Witness for C21: after a presence report, `keep_power` and an absence
report the record is reachable and armed, and it is in forced mode. -/
theorem armed_implies_forced_witness :
    Reachable (run "esp32_smart_guardian" (currentStatus 0)
        [Event.report motionReport 100, Event.command (some "keep_power") 110,
          Event.report idleReport 130])
      ∧ (run "esp32_smart_guardian" (currentStatus 0)
        [Event.report motionReport 100, Event.command (some "keep_power") 110,
          Event.report idleReport 130]).forced_release_armed = true
      ∧ (run "esp32_smart_guardian" (currentStatus 0)
        [Event.report motionReport 100, Event.command (some "keep_power") 110,
          Event.report idleReport 130]).forced_mode = true := by
  have harmed : (run "esp32_smart_guardian" (currentStatus 0)
      [Event.report motionReport 100, Event.command (some "keep_power") 110,
        Event.report idleReport 130]).forced_release_armed = true := by
    simp [run, step, commandHandler, postCommand, postStatus, effectiveMotion,
      reportFlags, motionReport, idleReport, currentStatus]
  exact ⟨⟨_, _, _, rfl⟩, harmed,
    (armed_implies_forced _ ⟨_, _, _, rfl⟩).1 harmed⟩

/-! ### Forced mode under reports, polls and timer runs -/

/-- An event other than an operator command that is not a report raising
`motion_detected` keeps a record in forced mode with no countdown in that
condition: a report in forced mode never starts the countdown, so the
countdown checker, which alone could clear `forced_mode`, does not fire. -/
theorem step_keeps_forced (cfgDeviceId : String) (s : Status) (e : Event)
    (hf : s.forced_mode = true) (hc : s.countdown_active = false)
    (hcmd : e.isCommand = false) (hno : reportRaisesMotion s e = false) :
    (step cfgDeviceId s e).forced_mode = true
      ∧ (step cfgDeviceId s e).countdown_active = false := by
  cases e with
  | report data now =>
    revert hno
    cases hm : s.motion_detected <;> cases hd : effectiveMotion data <;>
      cases ha : s.forced_release_armed <;>
      simp [reportRaisesMotion, step, postStatus, hf, hc, hm, hd, ha]
  | command command now => simp [Event.isCommand] at hcmd
  | poll =>
    cases hp : s.pending_command <;> simp [step, getCommand, hp, hf, hc]
  | relayRead => exact ⟨hf, hc⟩
  | countdownTick now => simp [step, countdownCheck, hf, hc]
  | heartbeatTick now =>
    simp only [step, heartbeatCheck]
    split_ifs <;> simp [hf, hc]

theorem run_keeps_forced (cfgDeviceId : String) (evs : List Event) :
    ∀ s : Status, s.forced_mode = true → s.countdown_active = false →
      (∀ e ∈ evs, e.isCommand = false) → noRisingReport cfgDeviceId s evs = true →
      (run cfgDeviceId s evs).forced_mode = true := by
  induction evs with
  | nil => intro s hf _ _ _; exact hf
  | cons e evs ih =>
    intro s hf hc hcmd hno
    simp only [noRisingReport, Bool.and_eq_true, Bool.not_eq_true'] at hno
    have hstep := step_keeps_forced cfgDeviceId s e hf hc
      (hcmd e (List.mem_cons_self e evs)) hno.1
    rw [run_cons]
    exact ih _ hstep.1 hstep.2
      (fun x hx => hcmd x (List.mem_cons_of_mem e hx)) hno.2

/-- On an occupied record, an event other than an operator command, and other
than a report with motion false, leaves `motion_detected` true and raises
nothing. -/
theorem step_keeps_motion (cfgDeviceId : String) (s : Status) (e : Event)
    (hm : s.motion_detected = true) (hcmd : e.isCommand = false)
    (hrep : ∀ data now, e = Event.report data now → effectiveMotion data = true) :
    (step cfgDeviceId s e).motion_detected = true
      ∧ reportRaisesMotion s e = false := by
  cases e with
  | report data now =>
    have hd := hrep data now rfl
    simp [reportRaisesMotion, step, postStatus, hm, hd]
  | command command now => simp [Event.isCommand] at hcmd
  | poll =>
    cases hp : s.pending_command <;>
      simp [reportRaisesMotion, step, getCommand, hp, hm]
  | relayRead => exact ⟨hm, rfl⟩
  | countdownTick now =>
    simp only [step, countdownCheck, reportRaisesMotion]
    split_ifs <;> simp [hm]
  | heartbeatTick now =>
    simp only [step, heartbeatCheck, reportRaisesMotion]
    split_ifs <;> simp [hm]

theorem noRisingReport_of_occupied (cfgDeviceId : String) (evs : List Event) :
    ∀ s : Status, s.motion_detected = true →
      (∀ e ∈ evs, e.isCommand = false) →
      (∀ data now, Event.report data now ∈ evs → effectiveMotion data = true) →
      noRisingReport cfgDeviceId s evs = true := by
  induction evs with
  | nil => intro s _ _ _; rfl
  | cons e evs ih =>
    intro s hm hcmd hrep
    have hstep := step_keeps_motion cfgDeviceId s e hm
      (hcmd e (List.mem_cons_self e evs))
      (fun data now he => hrep data now (by rw [← he]; exact List.mem_cons_self e evs))
    simp only [noRisingReport, Bool.and_eq_true, Bool.not_eq_true']
    exact ⟨hstep.2, ih _ hstep.1
      (fun x hx => hcmd x (List.mem_cons_of_mem e hx))
      (fun data now hx => hrep data now (List.mem_cons_of_mem e hx))⟩

/-- C6: after `keep_power`, along any finite sequence of events that holds no
operator command (reports, device polls, relay mirror reads, countdown-checker
runs and heartbeat-checker runs, in any order and at any times),
`forced_mode` is still true after each event as long as no report so far
changed `motion_detected` from false to true; in particular, when
`keep_power` was issued with `motion_detected` true and every report of the
sequence has motion true, `forced_mode` is true after each event. -/
theorem keep_power_survives_events (cfgDeviceId : String) (s s1 : Status) (now : ℚ)
    (evs : List Event)
    (hk : postCommand s (some "keep_power") now = Except.ok s1)
    (hcmd : ∀ e ∈ evs, e.isCommand = false) :
    (∀ k : Nat, noRisingReport cfgDeviceId s1 (evs.take k) = true →
        (run cfgDeviceId s1 (evs.take k)).forced_mode = true)
      ∧ (s.motion_detected = true →
          (∀ data t, Event.report data t ∈ evs → effectiveMotion data = true) →
          ∀ k : Nat, (run cfgDeviceId s1 (evs.take k)).forced_mode = true) := by
  have hs1 : s1 = { s with
      forced_mode := true
      forced_release_armed := !s.motion_detected
      countdown_active := false
      relay_active := true
      pending_command := some PendingCommand.relay_on } := by
    simp [postCommand] at hk
    exact hk.symm
  have hf : s1.forced_mode = true := by rw [hs1]
  have hc : s1.countdown_active = false := by rw [hs1]
  have hcmdk : ∀ k : Nat, ∀ e ∈ evs.take k, e.isCommand = false :=
    fun k e he => hcmd e (List.mem_of_mem_take he)
  refine ⟨fun k hno => run_keeps_forced cfgDeviceId (evs.take k) s1 hf hc (hcmdk k) hno, ?_⟩
  intro hm hall k
  have hm1 : s1.motion_detected = true := by rw [hs1]; exact hm
  exact run_keeps_forced cfgDeviceId (evs.take k) s1 hf hc (hcmdk k)
    (noRisingReport_of_occupied cfgDeviceId (evs.take k) s1 hm1 (hcmdk k)
      (fun data t he => hall data t (List.mem_of_mem_take he)))

/-- Witness for C6: after `keep_power` at 140 on `occupiedStatus`, a presence
report, a countdown check, a heartbeat check, a
device poll, an absence report (the falling edge in forced mode) and, long
after the countdown duration, a countdown check and a relay mirror read. -/
theorem keep_power_survives_events_witness :
    ∃ s1, postCommand occupiedStatus (some "keep_power") 140 = Except.ok s1
      ∧ noRisingReport "esp32_smart_guardian" s1
          ([Event.report motionReport 141, Event.countdownTick 142,
            Event.heartbeatTick 145, Event.poll, Event.report idleReport 150,
            Event.countdownTick 400, Event.relayRead].take 7) = true
      ∧ (run "esp32_smart_guardian" s1
          ([Event.report motionReport 141, Event.countdownTick 142,
            Event.heartbeatTick 145, Event.poll, Event.report idleReport 150,
            Event.countdownTick 400, Event.relayRead].take 7)).forced_mode = true := by
  have hk : postCommand occupiedStatus (some "keep_power") 140
      = Except.ok { occupiedStatus with
          forced_mode := true
          forced_release_armed := !occupiedStatus.motion_detected
          countdown_active := false
          relay_active := true
          pending_command := some PendingCommand.relay_on } := by
    simp [postCommand]
  have hno : noRisingReport "esp32_smart_guardian"
      { occupiedStatus with
          forced_mode := true
          forced_release_armed := !occupiedStatus.motion_detected
          countdown_active := false
          relay_active := true
          pending_command := some PendingCommand.relay_on }
      ([Event.report motionReport 141, Event.countdownTick 142,
        Event.heartbeatTick 145, Event.poll, Event.report idleReport 150,
        Event.countdownTick 400, Event.relayRead].take 7) = true := by
    have h145 : ¬ ((60 : ℚ) < 145 - 141) := by norm_num
    simp [noRisingReport, reportRaisesMotion, step, postStatus, countdownCheck,
      heartbeatCheck, getCommand, effectiveMotion, reportFlags, motionReport,
      idleReport, occupiedStatus, h145]
  exact ⟨_, hk, hno,
    (keep_power_survives_events "esp32_smart_guardian" occupiedStatus _ 140
      [Event.report motionReport 141, Event.countdownTick 142,
        Event.heartbeatTick 145, Event.poll, Event.report idleReport 150,
        Event.countdownTick 400, Event.relayRead] hk
      (by simp [Event.isCommand])).1 7 hno⟩

/-! ### History retention when the `DELETE` is executed first -/

/-- On a table within the limit the `DELETE` removes nothing. -/
theorem pruneHistory_within_limit (orderBy : List HistoryRow → List HistoryRow)
    (horder : OrdersByTsDesc orderBy) (limit : Nat) (rows : List HistoryRow)
    (hlen : rows.length ≤ limit) :
    pruneHistory orderBy limit rows = rows := by
  have hperm := (horder rows).1
  have htake : (orderBy rows).take limit = orderBy rows :=
    List.take_of_length_le (by rw [hperm.length_eq]; exact hlen)
  simp only [pruneHistory, htake]
  rw [List.filter_eq_self]
  intro a ha
  simp only [decide_eq_true_eq]
  exact List.mem_map.2 ⟨a, hperm.symm.subset ha, rfl⟩

/-- When the `DELETE` is executed before the `INSERT` on a table of at most
28800 rows, nothing is removed and the new row is added: a table at the cap
ends with 28801 rows. -/
theorem addStatusSample_delete_first (orderBy : List HistoryRow → List HistoryRow)
    (horder : OrdersByTsDesc orderBy) (t : HistoryTable) (state : StateKey)
    (tsSeconds : ℚ) (hlen : t.rows.length ≤ 28800) :
    (addStatusSample orderBy RunOrder.deleteFirst t state tsSeconds).rows
      = t.rows ++ [{ id := t.seq + 1, ts := tsSeconds, state := state }] := by
  simp only [addStatusSample]
  rw [pruneHistory_within_limit orderBy horder 28800 t.rows hlen]

/-- The keys stay distinct when a row is inserted under the next key. -/
theorem insert_ids_nodup (t : HistoryTable) (hwf : t.WF) (state : StateKey)
    (tsSeconds : ℚ) :
    ((t.rows ++ [HistoryRow.mk (t.seq + 1) tsSeconds state]).map HistoryRow.id).Nodup := by
  rw [List.map_append, List.nodup_append]
  refine ⟨hwf.1, by simp, ?_⟩
  intro a ha hb
  simp only [List.map_cons, List.map_nil, List.mem_singleton] at hb
  obtain ⟨r, hr, hra⟩ := List.mem_map.1 ha
  have := hwf.2 r hr
  omega

theorem sampleRows_length (n : Nat) : (sampleRows n).length = n := by
  unfold sampleRows
  rw [List.length_map, List.length_range]

theorem sampleRows_mem (n : Nat) (r : HistoryRow) (hr : r ∈ sampleRows n) :
    ∃ i : Nat, i < n ∧ r = HistoryRow.mk (i + 1) (i : ℚ) StateKey.IDLE := by
  unfold sampleRows at hr
  obtain ⟨i, hi, hri⟩ := List.mem_map.1 hr
  exact ⟨i, List.mem_range.1 hi, hri.symm⟩

theorem sampleRows_ids_nodup (n : Nat) : ((sampleRows n).map HistoryRow.id).Nodup := by
  have hmap : (sampleRows n).map HistoryRow.id = (List.range n).map (fun i => i + 1) := by
    unfold sampleRows
    rw [List.map_map]
    rfl
  rw [hmap]
  exact List.Nodup.map (fun a b hab => Nat.succ.inj hab) (List.nodup_range n)

theorem sampleRows_oldest_mem (n : Nat) (hn : 0 < n) :
    HistoryRow.mk 1 0 StateKey.IDLE ∈ sampleRows n := by
  unfold sampleRows
  refine List.mem_map.2 ⟨0, List.mem_range.2 hn, ?_⟩
  simp

theorem fullTable_rows : fullTable.rows = sampleRows 28800 := by
  simp only [fullTable]

theorem fullTable_length : fullTable.rows.length = 28800 := by
  rw [fullTable_rows]
  exact sampleRows_length 28800

theorem fullTable_mem (r : HistoryRow) (hr : r ∈ fullTable.rows) :
    ∃ i : Nat, i < 28800 ∧ r = HistoryRow.mk (i + 1) (i : ℚ) StateKey.IDLE := by
  rw [fullTable_rows] at hr
  exact sampleRows_mem 28800 r hr

theorem fullTable_wf : fullTable.WF := by
  constructor
  · rw [fullTable_rows]
    exact sampleRows_ids_nodup 28800
  · intro r hr
    obtain ⟨i, hi, hri⟩ := fullTable_mem r hr
    have hseq : fullTable.seq = 28800 := by simp only [fullTable]
    rw [hri, hseq]
    show i + 1 ≤ 28800
    omega

/-- The oldest row of `fullTable`. -/
theorem fullTable_oldest_mem :
    HistoryRow.mk 1 0 StateKey.IDLE ∈ fullTable.rows := by
  rw [fullTable_rows]
  exact sampleRows_oldest_mem 28800 (by omega)

/-- C20 (code at the failing input): a sample added to `fullTable`, which
holds 28800 rows (times 0 to 28799), at time 100000. When the `DELETE` is
executed before the `INSERT`, which the two unserialized `db.run` calls allow,
the table ends with 28801 rows, above the cap, and the oldest row (time 0) is
still there. When the `INSERT` is executed first the table ends with 28800
rows and the oldest row is gone. -/
theorem addStatusSample_exceeds_cap :
    fullTable.WF ∧ fullTable.rows.length ≤ 28800
      ∧ (addStatusSample orderByTsDesc RunOrder.deleteFirst fullTable
            StateKey.SOMEONE 100000).rows.length = 28801
      ∧ ¬ ((addStatusSample orderByTsDesc RunOrder.deleteFirst fullTable
            StateKey.SOMEONE 100000).rows.length ≤ 28800)
      ∧ HistoryRow.mk 1 0 StateKey.IDLE
          ∈ (addStatusSample orderByTsDesc RunOrder.deleteFirst fullTable
              StateKey.SOMEONE 100000).rows
      ∧ (addStatusSample orderByTsDesc RunOrder.insertFirst fullTable
            StateKey.SOMEONE 100000).rows.length = 28800
      ∧ HistoryRow.mk 1 0 StateKey.IDLE
          ∉ (addStatusSample orderByTsDesc RunOrder.insertFirst fullTable
              StateKey.SOMEONE 100000).rows := by
  have hlen := fullTable_length
  have hdel := addStatusSample_delete_first orderByTsDesc orderByTsDesc_spec fullTable
    StateKey.SOMEONE 100000 (le_of_eq hlen)
  have hdlen : (addStatusSample orderByTsDesc RunOrder.deleteFirst fullTable
      StateKey.SOMEONE 100000).rows.length = 28801 := by
    rw [hdel, List.length_append, hlen]
    rfl
  have hins := addStatusSample_retention orderByTsDesc orderByTsDesc_spec fullTable
    StateKey.SOMEONE 100000 fullTable_wf (le_of_eq hlen)
  have hilen : (addStatusSample orderByTsDesc RunOrder.insertFirst fullTable
      StateKey.SOMEONE 100000).rows.length = 28800 := by
    rw [hins.2.1, hlen]
    rfl
  refine ⟨fullTable_wf, le_of_eq hlen, hdlen, by rw [hdlen]; omega, ?_, hilen, ?_⟩
  · rw [hdel]
    exact List.mem_append_left _ fullTable_oldest_mem
  · intro hold
    have hnd : (fullTable.rows
        ++ [HistoryRow.mk (fullTable.seq + 1) 100000 StateKey.SOMEONE]).Nodup :=
      List.Nodup.of_map HistoryRow.id
        (insert_ids_nodup fullTable fullTable_wf StateKey.SOMEONE 100000)
    have hex : ∃ r, r ∈ fullTable.rows
          ++ [HistoryRow.mk (fullTable.seq + 1) 100000 StateKey.SOMEONE]
        ∧ r ∉ (addStatusSample orderByTsDesc RunOrder.insertFirst fullTable
          StateKey.SOMEONE 100000).rows := by
      by_contra hall
      push_neg at hall
      have hle := (List.subperm_of_subset hnd hall).length_le
      rw [hilen, List.length_append, hlen] at hle
      simp at hle
    obtain ⟨r, hr, hrem⟩ := hex
    have hts0 : r.ts ≤ 0 := hins.2.2.2.2.1 r hr hrem _ hold
    rcases List.mem_append.1 hr with h | h
    · obtain ⟨i, _, hri⟩ := fullTable_mem r h
      rw [hri] at hts0
      have hi0 : (i : ℚ) ≤ 0 := hts0
      have hi : i = 0 := by
        have : (i : ℚ) = 0 := le_antisymm hi0 (Nat.cast_nonneg i)
        exact_mod_cast this
      apply hrem
      rw [hri, hi]
      simpa using hold
    · rw [List.mem_singleton.1 h] at hts0
      have : (100000 : ℚ) ≤ 0 := hts0
      norm_num at this

end Guardian
